import Mathlib

/-!
The viewport engine of the candlestick chart, `src/candleStickChart.js`.

A shallow embedding of the chart class `CandleStickChart` and of the few
`d3` primitives it calls, followed by theorems about candle spacing, the
filtered window, panning, box zoom, wheel zoom and the price scale.

Conventions of the embedding.

* A JavaScript number is a rational (`ℚ`): arithmetic is exact, so the
  theorems speak about the formulas of the program, not about the rounding
  of IEEE doubles.  `NaN` is modelled only where the program can produce it
  from well-formed data, namely in the candle spacing (`Option`, `none` is
  `NaN`); a viewport without a number to stand for it is `none` as a whole
  (`handleZoom`).  Divisions are only meaningful for a non-zero divisor and
  the theorems that depend on one assume it.
* A `Date` holds a whole number of milliseconds: `new Date(t)` truncates `t`
  towards zero (`jsTrunc`).
* `undefined` is `none`.
* The DOM is not modelled.  The one DOM value the engine reads back, the
  pixel width of the candle container, is an explicit argument
  (`containerWidth`) of the handlers that read it.
-/

namespace CandleStickChart

/-! ## JavaScript and d3 primitives -/

/-- Truncation towards zero, the `ToIntegerOrInfinity` step of `new Date(t)`. -/
def jsTrunc (q : ℚ) : ℤ := if 0 ≤ q then ⌊q⌋ else ⌈q⌉

/-- The function `Math.round`: the nearest integer, a tie going up. -/
def jsRound (q : ℚ) : ℤ := ⌊q + 1 / 2⌋

/-- A `date` value of a sample as the program observes it: `text` is its
string conversion, which the comparator-less `Array.prototype.sort()` orders
by, and `time` is `new Date(date).getTime()`, the epoch milliseconds. -/
structure DateVal where
  text : String
  time : ℤ
deriving DecidableEq, Repr

/-- The date given as an epoch-millisecond number: its string conversion is
the decimal numeral and `new Date(n).getTime()` is `n`. -/
def DateVal.ofMillis (n : ℕ) : DateVal := ⟨toString n, (n : ℤ)⟩

/-- One record of the dataset; `sl`, `tp`, `long` and `short` may be absent. -/
structure Sample where
  date : DateVal
  open_ : ℚ
  high : ℚ
  low : ℚ
  close : ℚ
  sl : Option ℚ := none
  tp : Option ℚ := none
  long : Option ℚ := none
  short : Option ℚ := none
deriving DecidableEq, Repr

/-- The order of the default sort comparator: strings compared
lexicographically, character by character. -/
def textLe (a b : DateVal) : Prop := a.text.toList ≤ b.text.toList

instance : DecidableRel textLe := fun a b =>
  inferInstanceAs (Decidable (a.text.toList ≤ b.text.toList))

/-- The call `times.sort()` without a comparator: a stable sort by string
conversion. -/
def defaultSort (times : List DateVal) : List DateVal :=
  List.insertionSort textLe times

/-- The function `parseDate` of `helper.js` followed by the numeric coercion
of the `Date`; `parseDate(undefined)` is an invalid date, whose number is
`NaN` (`none`). -/
def parseDate (d : Option DateVal) : Option ℚ := d.map fun v => (v.time : ℚ)

/-- Subtraction of two numbers either of which may be `NaN`. -/
def nanSub (a b : Option ℚ) : Option ℚ :=
  match a, b with
  | some x, some y => some (x - y)
  | _, _ => none

/-- The comparison `a < b` of two numbers either of which may be `NaN`. -/
def nanLt (a b : Option ℚ) : Bool :=
  match a, b with
  | some x, some y => decide (x < y)
  | _, _ => false

/-- The difference `parseDate(times[i + 1]) - parseDate(times[i])`. -/
def gapAt (times : List DateVal) (i : ℕ) : Option ℚ :=
  nanSub (parseDate times[i + 1]?) (parseDate times[i]?)

/-- One turn of the `for` loop of `#calculateCandleWidthDate`; the loop
state is `(min, indexes)`. -/
def widthDateStep (times : List DateVal) (st : Option ℚ × ℕ × ℕ) (i : ℕ) :
    Option ℚ × ℕ × ℕ :=
  if nanLt (gapAt times i) st.1 then (gapAt times i, i, i + 1) else st

/-- The loop `for (let i = 1; i < times.length; i++)` run from
`min = parseDate(times[1]) - parseDate(times[0])`, `indexes = [0, 1]`. -/
def widthDateLoop (times : List DateVal) : Option ℚ × ℕ × ℕ :=
  (List.range' 1 (times.length - 1)).foldl (widthDateStep times) (gapAt times 0, 0, 1)

/-- The method `#calculateCandleWidthDate`: the pair
`(candleLockerWidthDate, candleWidthDate)` it assigns. -/
def calculateCandleWidthDate (filteredData : List Sample) : Option ℚ × Option ℚ :=
  let times := defaultSort (filteredData.map fun x => x.date)
  let indexes := (widthDateLoop times).2
  let rWidth := nanSub (parseDate times[indexes.2]?) (parseDate times[indexes.1]?)
  (rWidth, rWidth.map fun r => r - r * (3 / 10))

/-- The function `d3.max` on numbers: `undefined` for an empty array. -/
def d3max (values : List ℚ) : Option ℚ :=
  values.foldl (fun acc v => match acc with
    | none => some v
    | some m => some (if m < v then v else m)) none

/-- One turn of the loop of `d3.extent`: `undefined` values are skipped, the
first number starts both ends, a later one moves an end it passes. -/
def extentStep (acc : Option (ℚ × ℚ)) (value : Option ℚ) : Option (ℚ × ℚ) :=
  match value, acc with
  | none, _ => acc
  | some v, none => some (v, v)
  | some v, some (mn, mx) => some (if mn > v then v else mn, if mx < v then v else mx)

/-- The function `d3.extent`: `[min, max]` of the numbers of the array, or
`[undefined, undefined]` (`none`) when it holds no number. -/
def d3extent (values : List (Option ℚ)) : Option (ℚ × ℚ) :=
  values.foldl extentStep none

/-- A continuous d3 scale with domain `[d0, d1]` and range `[r0, r1]`. -/
structure Scale where
  d0 : ℚ
  d1 : ℚ
  r0 : ℚ
  r1 : ℚ
deriving DecidableEq, Repr

/-- The helper `normalize(a, b)` of d3-scale: `(x - a) / (b - a)`, and the
constant `0.5` when `a` and `b` coincide. -/
def normalize (a b x : ℚ) : ℚ := if b - a ≠ 0 then (x - a) / (b - a) else 1 / 2

/-- The interpolator `interpolateNumber(a, b)` of d3-interpolate. -/
def interpolateNumber (a b t : ℚ) : ℚ := a * (1 - t) + b * t

/-- The helper `bimap(domain, range, interpolate)` of d3-scale. -/
def bimap (d0 d1 r0 r1 x : ℚ) : ℚ :=
  if d1 < d0 then interpolateNumber r1 r0 (normalize d1 d0 x)
  else interpolateNumber r0 r1 (normalize d0 d1 x)

/-- The call `scale(x)`: domain to range. -/
def Scale.apply (sc : Scale) (x : ℚ) : ℚ := bimap sc.d0 sc.d1 sc.r0 sc.r1 x

/-- The call `scale.invert(y)` of a linear scale: range to domain. -/
def Scale.invert (sc : Scale) (y : ℚ) : ℚ := bimap sc.r0 sc.r1 sc.d0 sc.d1 y

/-- The call `scale.invert(y)` of a time scale followed by `getTime()`: the
time scale wraps the number in `new Date`, which truncates it to whole
milliseconds. -/
def Scale.invertTime (sc : Scale) (y : ℚ) : ℚ := (jsTrunc (sc.invert y) : ℚ)

/-- Length of `x.toFixed(digits).toString()` for `|x| < 10 ^ 21`: an optional
sign, the digits of the rounded integer part and, when `digits` is positive,
the point and `digits` decimals.  From `10 ^ 21` on `toFixed` switches to
exponent notation, which this count does not follow. -/
def toFixedLength (x : ℚ) (digits : ℕ) : ℕ :=
  let k := (toString (jsRound (|x| * 10 ^ digits)).toNat).length
  (if x < 0 then 1 else 0) + (if digits = 0 then k else max k (digits + 1) + 1)

/-! ## The chart -/

/-- The numeric fields of the object built by `config(width, height)` of
`config.js`, which lies outside this development, that the engine uses. -/
structure Config where
  width : ℚ
  height : ℚ
  paddingLeft : ℚ
  paddingRight : ℚ
  paddingTop : ℚ
  paddingBottom : ℚ
  svgWidth : ℚ
  svgHeight : ℚ
  charWidth : ℚ
  decimal : ℕ
  yLabelWidth : ℚ
  yLabelHeight : ℚ
  xLabelWidth : ℚ
  xLabelHeight : ℚ
  infoTextWidth : ℚ
  infoTextWidthMeta : ℚ
  yPaddingScaleTop : ℚ
  yPaddingScaleBottom : ℚ
  candleTailWidth : ℚ

/-- The interaction mode, the field `#mode`. -/
inductive Mode where
  | pan
  | zoom
deriving DecidableEq, Repr

/-- The fields of a chart that the constructor and the field initialisers
assign.  `#panTargetDate` is declared without a value and is read only by
`#handlePan`, which runs only while `#isMouseDown`, after a `mousedown` in
pan mode has assigned it; it starts here at `0`, the value `mouseup` resets
it to. -/
structure Chart where
  config : Config
  maxPrice : ℚ
  data : List Sample
  filteredData : List Sample
  lockSelectorX : Bool
  mode : Mode
  isMouseDown : Bool
  zoomPoint1 : Option ℚ
  zoomPoint2 : Option ℚ
  zoomRange1 : ℚ
  zoomRange2 : ℚ
  minMaxDate : ℚ × ℚ
  zoomFactor : ℚ
  panTargetDate : ℚ
  candleLockerWidthDate : Option ℚ
  candleWidthDate : Option ℚ

/-- A chart after `draw()`: the four fields that only `draw()` assigns are
set.  The pointer and wheel handlers are registered by `draw()`, so they act
on a `Scene`. -/
structure Scene extends Chart where
  xScaleFunc : Scale
  yScaleFunc : Scale
  candleLockerWidth : Option ℚ
  candleWidth : Option ℚ

/-- The errors the constructor and `setConfig` can raise. -/
inductive JsError where
  | typeError
  | rangeError
deriving DecidableEq, Repr

/-- The methods `#calculateInfoTextWidth` to `#calculateSvgHeight`, run in
the order of `#calculateExtendConfigs`. -/
def calculateExtendConfigs (maxPrice : ℚ) (c : Config) : Config :=
  let len : ℚ := (toFixedLength maxPrice c.decimal : ℕ)
  let c := { c with infoTextWidth := (len * 4 + 11) * c.charWidth }
  let c := { c with infoTextWidthMeta := (len * 3 + 14) * c.charWidth }
  let c := { c with yLabelWidth := 5 / 2 + len * c.charWidth }
  let c := { c with paddingRight := c.yLabelWidth }
  let c := { c with svgWidth := c.width - (c.paddingLeft + c.paddingRight) - 2 }
  { c with svgHeight := c.height - (c.paddingBottom + c.paddingTop + 6) }

/-- The comparator `(a, b) => parseDate(a) - parseDate(b)` of the
constructor.  `parseDate` receives the sample object, not its `date`, so both
dates are invalid and the difference is `NaN`. -/
def constructorComparator (_a _b : Sample) : Option ℚ := nanSub none none

/-- The call `data.sort(comparator)`: a stable sort in which `a` stays before
`b` unless the comparator is positive; a `NaN` result counts as `+0`. -/
def sortWith (comparator : Sample → Sample → Option ℚ) (data : List Sample) : List Sample :=
  List.insertionSort (fun a b => (comparator a b).getD 0 ≤ 0) data

/-- The constructor, given the object `cfg` returned by `config(width, height)`.
On an empty dataset `d3.max` is `undefined` and `this.#maxPrice.toFixed`
raises a `TypeError`. -/
def construct (cfg : Config) (data : List Sample) : Except JsError Chart :=
  match d3max (data.map fun x => x.high) with
  | none => .error .typeError
  | some maxPrice =>
    let data := sortWith constructorComparator data
    match d3extent (data.map fun x => parseDate (some x.date)) with
    | none => .error .typeError
    | some minMaxDate =>
      let widths := calculateCandleWidthDate data
      .ok { config := calculateExtendConfigs maxPrice cfg
            maxPrice := maxPrice
            data := data
            filteredData := data
            lockSelectorX := false
            mode := .pan
            isMouseDown := false
            zoomPoint1 := none
            zoomPoint2 := none
            zoomRange1 := minMaxDate.1
            zoomRange2 := minMaxDate.2
            minMaxDate := minMaxDate
            zoomFactor := 1
            panTargetDate := 0
            candleLockerWidthDate := widths.1
            candleWidthDate := widths.2 }

/-- The method `#calculateXscale`: a time scale from the zoom range onto
`[0, svgWidth]`.  `scaleTime().domain` stores each end as `+new Date(+t)`,
that is truncated to whole milliseconds. -/
def calculateXscale (c : Chart) : Scale :=
  { d0 := (jsTrunc c.zoomRange1 : ℚ), d1 := (jsTrunc c.zoomRange2 : ℚ), r0 := 0,
    r1 := c.config.svgWidth }

/-- The domain `yMinMax` of `#calculateYscale`: `[0, 1]` for an empty window,
otherwise the reversed extent of all `high`, `low`, `sl` and `tp`, the first
end raised by `yPaddingScaleTop` and the second lowered by
`yPaddingScaleBottom`.  The extent is defined as soon as the window has a
sample, because every `high` is a number. -/
def yMinMax (c : Chart) : ℚ × ℚ :=
  if c.filteredData.length = 0 then (0, 1)
  else
    match d3extent (c.filteredData.map (fun x => some x.high)
        ++ c.filteredData.map (fun x => some x.low)
        ++ c.filteredData.map (fun x => x.sl)
        ++ c.filteredData.map (fun x => x.tp)) with
    | none => (0, 1)
    | some (mn, mx) =>
      (mx + mx * c.config.yPaddingScaleTop, mn - mn * c.config.yPaddingScaleBottom)

/-- The method `#calculateYscale`: a linear scale from `yMinMax` onto
`[0, svgHeight]`. -/
def calculateYscale (c : Chart) : Scale :=
  { d0 := (yMinMax c).1, d1 := (yMinMax c).2, r0 := 0, r1 := c.config.svgHeight }

/-- The method `#calculateCandleWidth`: the pair
`(candleLockerWidth, candleWidth)` in pixels, both `0` for an empty window. -/
def calculateCandleWidth (c : Chart) (xScaleFunc : Scale) : Option ℚ × Option ℚ :=
  if c.filteredData.length = 0 then (some 0, some 0)
  else
    match d3extent (c.filteredData.map fun x => parseDate (some x.date)),
        c.candleLockerWidthDate with
    | some minMax, some w =>
      let lockerWidth := xScaleFunc.apply (minMax.1 + w) - xScaleFunc.apply minMax.1
      (some lockerWidth, some (lockerWidth - lockerWidth * (3 / 10)))
    | _, _ => (none, none)

/-- The method `draw()` as far as the fields of the chart go: the scales and
the pixel widths are recomputed from the zoom range, the configuration and
the filtered window. -/
def draw (c : Chart) : Scene :=
  let xScaleFunc := calculateXscale c
  let widths := calculateCandleWidth c xScaleFunc
  { c with
    xScaleFunc := xScaleFunc
    yScaleFunc := calculateYscale c
    candleLockerWidth := widths.1
    candleWidth := widths.2 }

/-- The predicate of the three `this.data.filter` calls: the date of `x` is
strictly between `left - candleWidthDate` and `right + candleWidthDate`; a
comparison with `NaN` is false. -/
def inWindow (candleWidthDate : Option ℚ) (left right : ℚ) (x : Sample) : Bool :=
  match candleWidthDate with
  | none => false
  | some w => decide ((x.date.time : ℚ) > left - w) && decide ((x.date.time : ℚ) < right + w)

/-- The method `#handlePan(location)`; `containerWidth` is the pixel width
read back from the candle container. -/
def handlePan (s : Scene) (containerWidth location : ℚ) : Scene :=
  let dateWidth := s.zoomRange2 - s.zoomRange1
  let fraction := location / containerWidth
  let newZoomRange1 := s.panTargetDate - fraction * dateWidth
  let newZoomRange2 := newZoomRange1 + dateWidth
  let filteredData := s.data.filter (inWindow s.candleWidthDate newZoomRange1 newZoomRange2)
  draw { s.toChart with
    zoomRange1 := newZoomRange1
    zoomRange2 := newZoomRange2
    filteredData := filteredData }

/-- The method `#handleZoom()`.  With both selection points `undefined` the
program goes on with invalid dates; that viewport has no number to stand for
it and the result is `none`. -/
def handleZoom (s : Scene) : Option Scene :=
  match d3extent [s.zoomPoint1, s.zoomPoint2] with
  | none => none
  | some minMaxZoom =>
    let leftDate := s.xScaleFunc.invertTime minMaxZoom.1
    let rightDate := s.xScaleFunc.invertTime minMaxZoom.2
    if leftDate - rightDate = 0 then some s
    else
      let filteredData := s.data.filter (inWindow s.candleWidthDate leftDate rightDate)
      let oldZoomRange1 := s.minMaxDate.1
      let oldZoomRange2 := s.minMaxDate.2
      let newZoomRange1 := s.xScaleFunc.invertTime minMaxZoom.1
      let newZoomRange2 := s.xScaleFunc.invertTime minMaxZoom.2
      some (draw { s.toChart with
        zoomFactor := (oldZoomRange2 - oldZoomRange1) / (newZoomRange2 - newZoomRange1)
        zoomRange1 := newZoomRange1
        zoomRange2 := newZoomRange2
        filteredData := filteredData })

/-- The `mousedown` listener of the candle container at pointer `x`. -/
def mouseDown (s : Scene) (x : ℚ) : Scene :=
  let s := { s with isMouseDown := true }
  match s.mode with
  | .zoom => { s with zoomPoint1 := some x }
  | .pan => { s with panTargetDate := s.xScaleFunc.invertTime x }

/-- The `mousemove` listener of the candle container at pointer `x`, as far
as the fields of the chart go (the crosshair is DOM only). -/
def mouseMove (s : Scene) (containerWidth x : ℚ) : Scene :=
  let x := if x > s.config.width then s.config.width else x
  if s.isMouseDown && s.mode == .zoom then { s with zoomPoint2 := some x }
  else if s.isMouseDown && s.mode == .pan then handlePan s containerWidth x
  else s

/-- The `mouseup` listener of the candle container. -/
def mouseUp (s : Scene) : Option Scene :=
  let s := { s with isMouseDown := false }
  match s.mode with
  | .zoom => (handleZoom s).map fun s => { s with zoomPoint1 := some 0, zoomPoint2 := some 0 }
  | .pan => some { s with panTargetDate := 0 }

/-- The `zoom` listener registered by `draw()` (the wheel): `k` is
`e.transform.k` and `x` the pointer. -/
def wheelZoom (s : Scene) (containerWidth k x : ℚ) : Scene :=
  let zoomFactor := s.zoomFactor * (if k > 1 then 11 / 10 else 9 / 10)
  let width := s.minMaxDate.2 - s.minMaxDate.1
  let newWidth : ℚ := (jsRound (width / zoomFactor) : ℚ)
  let svgWidth := containerWidth
  let target := s.xScaleFunc.invertTime x
  let coeff : ℚ := (jsRound (newWidth * x / svgWidth) : ℚ)
  let left := target - coeff
  let right := left + newWidth
  let filteredData := s.data.filter (inWindow s.candleWidthDate left right)
  draw { s.toChart with
    zoomFactor := zoomFactor
    zoomRange1 := left
    zoomRange2 := right
    filteredData := filteredData }

/-! ## Markers, crosshair labels and reconfiguration -/

/-- Truthiness of an optional number: `undefined` and `0` are falsy. -/
def truthy (v : Option ℚ) : Bool :=
  match v with
  | none => false
  | some x => decide (x ≠ 0)

/-- A scale called on a value that may be `undefined` or an invalid date: a
d3 scale then returns `undefined` (`none`). -/
def Scale.applyOpt (sc : Scale) (x : Option ℚ) : Option ℚ := x.map sc.apply

/-- The render set of `#createShortPositions`:
`filteredData.filter((x) => x.short)`. -/
def createShortPositions (s : Scene) : List Sample :=
  s.filteredData.filter fun x => truthy x.short

/-- The render set of `#createLongPositions`:
`filteredData.filter((x) => x.long)`. -/
def createLongPositions (s : Scene) : List Sample :=
  s.filteredData.filter fun x => truthy x.long

/-- The render set of `#createStopLosses`:
`filteredData.filter((x) => x.short || x.long)`. -/
def createStopLosses (s : Scene) : List Sample :=
  s.filteredData.filter fun x => truthy x.short || truthy x.long

/-- The render set of `#createTakeProfits`:
`filteredData.filter((x) => x.short || x.long)`. -/
def createTakeProfits (s : Scene) : List Sample :=
  s.filteredData.filter fun x => truthy x.short || truthy x.long

/-- The value `yScaleFunc(d.sl)` handed to `attr('y', ...)` for a stop-loss
marker; `none` is `undefined`. -/
def stopLossY (s : Scene) (d : Sample) : Option ℚ := s.yScaleFunc.applyOpt d.sl

/-- The value `yScaleFunc(d.tp)` handed to `attr('y', ...)` for a take-profit
marker; `none` is `undefined`. -/
def takeProfitY (s : Scene) (d : Sample) : Option ℚ := s.yScaleFunc.applyOpt d.tp

/-- The `y` at which the `rect` of a marker lies once `attr('y', v)` has run
on the element appended by `enter()`: for `undefined` d3 sets no attribute
and the `rect` keeps the SVG default `0`. -/
def attrY (v : Option ℚ) : ℚ := v.getD 0

/-- The `y` of the base of a long marker, `yScaleFunc(d.long)`. -/
def longY (s : Scene) (d : Sample) : Option ℚ := s.yScaleFunc.applyOpt d.long

/-- The `y` of the base of a short marker, `yScaleFunc(d.short)`. -/
def shortY (s : Scene) (d : Sample) : Option ℚ := s.yScaleFunc.applyOpt d.short

/-- The horizontal anchor of the X label in `#xLabelHandler(d, position)`.
`date` is `d.date`, which is `undefined` when `d` is the datum of the candle
container (the pointer path), and `position` is `undefined` when the handler
is called for a hovered sample.  `if (position)` takes the position only when
it is truthy; otherwise the date of `d` is scaled.  With `xPosition`
`undefined` both comparisons are false and the anchor is
`undefined - xLabelWidth / 2`, which is `NaN` (`none`). -/
def xLabelHandler (s : Scene) (date : Option DateVal) (position : Option ℚ) : Option ℚ :=
  let xPosition : Option ℚ :=
    if truthy position then position else s.xScaleFunc.applyOpt (parseDate date)
  xPosition.map fun p =>
    if p ≥ s.config.svgWidth - s.config.xLabelWidth / 2 then
      s.config.svgWidth - s.config.xLabelWidth
    else if p ≤ s.config.xLabelWidth / 2 then 0
    else p - s.config.xLabelWidth / 2

/-- The vertical anchor of the Y label in `#yLabelHandler(d, position)`. -/
def yLabelHandler (s : Scene) (position : ℚ) : ℚ :=
  if position ≥ s.config.svgHeight - s.config.yLabelHeight / 2 then
    s.config.svgHeight - s.config.yLabelHeight
  else if position ≤ s.config.yLabelHeight / 2 then 0
  else position - s.config.yLabelHeight / 2

/-- The method `#mouseMoveLockers(d)` as far as the fields go. -/
def mouseMoveLockers (s : Scene) : Scene := { s with lockSelectorX := true }

/-- The method `#mouseLeaveLocker(d)` as far as the fields go. -/
def mouseLeaveLocker (s : Scene) : Scene := { s with lockSelectorX := false }

/-- The argument of `setConfig`: an object that holds some of the keys of
the configuration. -/
structure ConfigUpdate where
  width : Option ℚ := none
  height : Option ℚ := none
  paddingLeft : Option ℚ := none
  paddingRight : Option ℚ := none
  paddingTop : Option ℚ := none
  paddingBottom : Option ℚ := none
  svgWidth : Option ℚ := none
  svgHeight : Option ℚ := none
  charWidth : Option ℚ := none
  decimal : Option ℕ := none
  yLabelWidth : Option ℚ := none
  yLabelHeight : Option ℚ := none
  xLabelWidth : Option ℚ := none
  xLabelHeight : Option ℚ := none
  infoTextWidth : Option ℚ := none
  infoTextWidthMeta : Option ℚ := none
  yPaddingScaleTop : Option ℚ := none
  yPaddingScaleBottom : Option ℚ := none
  candleTailWidth : Option ℚ := none

/-- The loop `for (const key in configObj) this.#config[key] = configObj[key]`. -/
def assignConfig (c : Config) (u : ConfigUpdate) : Config :=
  { width := u.width.getD c.width
    height := u.height.getD c.height
    paddingLeft := u.paddingLeft.getD c.paddingLeft
    paddingRight := u.paddingRight.getD c.paddingRight
    paddingTop := u.paddingTop.getD c.paddingTop
    paddingBottom := u.paddingBottom.getD c.paddingBottom
    svgWidth := u.svgWidth.getD c.svgWidth
    svgHeight := u.svgHeight.getD c.svgHeight
    charWidth := u.charWidth.getD c.charWidth
    decimal := u.decimal.getD c.decimal
    yLabelWidth := u.yLabelWidth.getD c.yLabelWidth
    yLabelHeight := u.yLabelHeight.getD c.yLabelHeight
    xLabelWidth := u.xLabelWidth.getD c.xLabelWidth
    xLabelHeight := u.xLabelHeight.getD c.xLabelHeight
    infoTextWidth := u.infoTextWidth.getD c.infoTextWidth
    infoTextWidthMeta := u.infoTextWidthMeta.getD c.infoTextWidthMeta
    yPaddingScaleTop := u.yPaddingScaleTop.getD c.yPaddingScaleTop
    yPaddingScaleBottom := u.yPaddingScaleBottom.getD c.yPaddingScaleBottom
    candleTailWidth := u.candleTailWidth.getD c.candleTailWidth }

/-- The method `setConfig(configObj)`: the keys are assigned, then
`#calculateExtendConfigs` runs.  Its first step calls
`toFixed(this.#config.decimal)`, which raises a `RangeError` for more than 100
digits; the keys are assigned by then and no dependent field is recomputed.
The result is the chart after the call and the error raised, if any.  (In
the constructor the digits are those of `config.js`.) -/
def setConfig (c : Chart) (u : ConfigUpdate) : Chart × Option JsError :=
  let c := { c with config := assignConfig c.config u }
  if c.config.decimal ≤ 100 then
    ({ c with config := calculateExtendConfigs c.maxPrice c.config }, none)
  else (c, some .rangeError)

/-- The method `setConfig(configObj)` on a drawn chart: the scales keep their
former values until the next `draw()`. -/
def Scene.setConfig (s : Scene) (u : ConfigUpdate) : Scene × Option JsError :=
  let s := { s with config := assignConfig s.config u }
  if s.config.decimal ≤ 100 then
    ({ s with config := calculateExtendConfigs s.maxPrice s.config }, none)
  else (s, some .rangeError)

/-! ## Notions used by the statements, and the charts of the examples -/

instance textLe_isTotal : IsTotal DateVal textLe :=
  ⟨fun a b => le_total a.text.toList b.text.toList⟩

instance textLe_isTrans : IsTrans DateVal textLe :=
  ⟨fun _ _ _ h1 h2 => le_trans (α := List Char) h1 h2⟩

/-- The gaps between neighbours of a sequence of times. -/
def adjacentGaps (ts : List ℤ) : List ℚ :=
  List.zipWith (fun (a b : ℤ) => (b : ℚ) - (a : ℚ)) ts ts.tail

/-- The times of the samples in ascending order: the date-sorted sequence. -/
def dateSorted (samples : List Sample) : List ℤ :=
  List.insertionSort (· ≤ ·) (samples.map fun x => x.date.time)

/-- The string order of the dates of the samples agrees with their order in
time, as it does for ISO-8601 texts of one format or for timestamps with the
same number of digits. -/
def TextOrderIsTimeOrder (samples : List Sample) : Prop :=
  ∀ a ∈ samples, ∀ b ∈ samples, textLe a.date b.date → a.date.time ≤ b.date.time

/-- The candle spacing is the minimum adjacent gap of the date-sorted
sequence: at most every gap and, from two samples on, one of them. -/
def SpacingIsMinGap (samples : List Sample) : Prop :=
  (∀ g ∈ adjacentGaps (dateSorted samples),
      ∃ m, (calculateCandleWidthDate samples).1 = some m ∧ m ≤ g) ∧
  (2 ≤ samples.length →
      ∃ m, (calculateCandleWidthDate samples).1 = some m ∧ m ∈ adjacentGaps (dateSorted samples))

/-- A sample with the given date and a flat price of `1`. -/
def flatSample (d : DateVal) : Sample :=
  { date := d, open_ := 1, high := 1, low := 1, close := 1 }

/-- Days 1, 2 and 4 as ISO-8601 date texts. -/
def isoDays : List Sample :=
  [flatSample ⟨"1970-01-02", 86400000⟩, flatSample ⟨"1970-01-03", 172800000⟩,
   flatSample ⟨"1970-01-05", 345600000⟩]

/-- Days 1, 2 and 4 as epoch-millisecond numbers. -/
def numericDays : List Sample :=
  [flatSample (.ofMillis 86400000), flatSample (.ofMillis 172800000),
   flatSample (.ofMillis 345600000)]

/-- A configuration as `config(1022, 626)` could return it; the derived
fields start at `0` and are filled in by the constructor. -/
def demoConfig : Config :=
  { width := 1022, height := 626, paddingLeft := 10, paddingRight := 0, paddingTop := 10,
    paddingBottom := 10, svgWidth := 0, svgHeight := 0, charWidth := 15 / 2, decimal := 0,
    yLabelWidth := 0, yLabelHeight := 20, xLabelWidth := 100, xLabelHeight := 20,
    infoTextWidth := 0, infoTextWidthMeta := 0, yPaddingScaleTop := 1 / 10,
    yPaddingScaleBottom := 1 / 10, candleTailWidth := 1 }

/-- Ten daily samples, day 0 to day 9, dated by ISO-8601 texts. -/
def tenDays : List Sample :=
  [flatSample ⟨"1970-01-01", 0⟩, flatSample ⟨"1970-01-02", 86400000⟩,
   flatSample ⟨"1970-01-03", 172800000⟩, flatSample ⟨"1970-01-04", 259200000⟩,
   flatSample ⟨"1970-01-05", 345600000⟩, flatSample ⟨"1970-01-06", 432000000⟩,
   flatSample ⟨"1970-01-07", 518400000⟩, flatSample ⟨"1970-01-08", 604800000⟩,
   flatSample ⟨"1970-01-09", 691200000⟩, flatSample ⟨"1970-01-10", 777600000⟩]

/-- The configuration of the demo chart after `#calculateExtendConfigs`. -/
def demoConfigExtended : Config :=
  { demoConfig with
    infoTextWidth := 225 / 2, infoTextWidthMeta := 255 / 2, yLabelWidth := 10,
    paddingRight := 10, svgWidth := 1000, svgHeight := 600 }

/-- The chart `new CandleStickChart(1022, 626, tenDays, id)`. -/
def demoChart : Chart :=
  { config := demoConfigExtended
    maxPrice := 1
    data := tenDays
    filteredData := tenDays
    lockSelectorX := false
    mode := .pan
    isMouseDown := false
    zoomPoint1 := none
    zoomPoint2 := none
    zoomRange1 := 0
    zoomRange2 := 777600000
    minMaxDate := (0, 777600000)
    zoomFactor := 1
    panTargetDate := 0
    candleLockerWidthDate := some 86400000
    candleWidthDate := some 60480000 }

/-- The scene shows the current zoom range: its time scale is the one
`draw()` builds from the fields, as after every `draw()`. -/
def Scene.Fresh (s : Scene) : Prop := s.xScaleFunc = calculateXscale s.toChart

/-- The window of the committed viewport `s2` of a chart whose
`candleWidthDate` is `w`: the data are unchanged and the filtered window is
the samples dated strictly between `zoomRange1 - w` and `zoomRange2 + w`. -/
def CommittedWindow (s : Scene) (w : ℚ) (s2 : Scene) : Prop :=
  s2.data = s.data ∧ s2.candleWidthDate = some w ∧
    s2.filteredData = s.data.filter fun p =>
      decide (s2.zoomRange1 - w < (p.date.time : ℚ) ∧ (p.date.time : ℚ) < s2.zoomRange2 + w)

/-- The window the closed interval `[left - spacing, right + spacing]` selects. -/
def inClosedWindow (spacing left right : ℚ) (x : Sample) : Bool :=
  decide (left - spacing ≤ (x.date.time : ℚ)) && decide ((x.date.time : ℚ) ≤ right + spacing)

/-- The demo chart drawn. -/
def demoScene : Scene := draw demoChart

/-- The demo scene after `mousedown` at pixel 500 and `mousemove` to pixel 400. -/
def pannedScene : Scene := mouseMove (mouseDown demoScene 500) 1000 400

/-- The demo scene after one wheel step in at pixel 500. -/
def wheeledScene : Scene := wheelZoom demoScene 1000 2 500

/-- Two ticks ten milliseconds apart. -/
def twoTicks : List Sample :=
  [flatSample ⟨"1970-01-01T00:00:00.000Z", 0⟩, flatSample ⟨"1970-01-01T00:00:00.010Z", 10⟩]

/-- The chart `new CandleStickChart(1022, 626, twoTicks, id)`. -/
def tickChart : Chart :=
  { demoChart with
    data := twoTicks
    filteredData := twoTicks
    zoomRange2 := 10
    minMaxDate := (0, 10)
    candleLockerWidthDate := some 10
    candleWidthDate := some 7 }

/-- The tick chart drawn. -/
def tickScene : Scene := draw tickChart

/-- The tick scene after one wheel step in at pixel 750. -/
def tickWheeled : Scene := wheelZoom tickScene 1000 2 750

/-- The tick scene after `mousedown` at pixel 500 and `mousemove` to pixel
250: the zoom range is `(2.5, 12.5)` and the time scale, whose domain ends
are whole milliseconds, runs from 2 to 12. -/
def pannedTicks : Scene := mouseMove (mouseDown tickScene 500) 1000 250

/-- The demo scene with the chart in zoom mode.  No method of the class
assigns `#mode`; the zoom-mode branches of the listeners are exercised from
this scene. -/
def zoomDemo : Scene := { demoScene with mode := .zoom }

/-- The zoom-mode demo scene with a selection dragged from pixel 50 to pixel 200. -/
def draggedScene : Scene := mouseMove (mouseDown zoomDemo 50) 1000 200

/-- The scene `t` has the mode, configuration, data and candle widths of `s`. -/
def SameSetting (s t : Scene) : Prop :=
  t.mode = s.mode ∧ t.config = s.config ∧ t.minMaxDate = s.minMaxDate ∧ t.data = s.data ∧
    t.candleWidthDate = s.candleWidthDate

/-- The scene `t` shows the viewport of `s`: zoom range, zoom factor, filtered
window and time scale are the same. -/
def SameView (s t : Scene) : Prop :=
  t.zoomRange1 = s.zoomRange1 ∧ t.zoomRange2 = s.zoomRange2 ∧ t.zoomFactor = s.zoomFactor ∧
    t.filteredData = s.filteredData ∧ t.xScaleFunc = s.xScaleFunc

/-- The numbers `mn` and `mx` are the least and the greatest entry of `l`. -/
def IsExtent (l : List ℚ) (mn mx : ℚ) : Prop :=
  mn ∈ l ∧ mx ∈ l ∧ ∀ v ∈ l, mn ≤ v ∧ v ≤ mx

/-- The prices of a window that enter the price scale: every `high` and
`low`, and the `sl` and `tp` that are present. -/
def presentPrices (window : List Sample) : List ℚ :=
  window.map (fun x => x.high) ++ window.map (fun x => x.low) ++
    (window.map fun x => x.sl).reduceOption ++ (window.map fun x => x.tp).reduceOption

/-- A single sample dated day 0. -/
def oneSample : List Sample := [flatSample ⟨"1970-01-01", 0⟩]

/-- Day 1 followed by day 0: a dataset that is not in date order. -/
def swappedDays : List Sample :=
  [flatSample ⟨"1970-01-02", 86400000⟩, flatSample ⟨"1970-01-01", 0⟩]

/-- The chart `new CandleStickChart(1022, 626, swappedDays, id)`. -/
def swappedChart : Chart :=
  { demoChart with
    data := swappedDays
    filteredData := swappedDays
    zoomRange2 := 86400000
    minMaxDate := (0, 86400000) }

/-- Day 0 with a long entry at price 1 and neither `sl` nor `tp`, then a
plain day 1. -/
def tradeDays : List Sample :=
  [{ flatSample ⟨"1970-01-01", 0⟩ with long := some 1 }, flatSample ⟨"1970-01-02", 86400000⟩]

/-- The chart `new CandleStickChart(1022, 626, tradeDays, id)`. -/
def tradeChart : Chart :=
  { demoChart with
    data := tradeDays
    filteredData := tradeDays
    zoomRange2 := 86400000
    minMaxDate := (0, 86400000) }

/-- The trade chart drawn. -/
def tradeScene : Scene := draw tradeChart

/-- A sample of day 0 with a long entry at price 1, `sl` at 1/2 and `tp`
at 2. -/
def hedgedEntry : Sample :=
  { flatSample ⟨"1970-01-01", 0⟩ with long := some 1, sl := some (1 / 2), tp := some 2 }

/-- The hedged entry of day 0, then a plain day 1. -/
def hedgedDays : List Sample := [hedgedEntry, flatSample ⟨"1970-01-02", 86400000⟩]

/-- The chart `new CandleStickChart(1022, 626, hedgedDays, id)`. -/
def hedgedChart : Chart :=
  { demoChart with
    data := hedgedDays
    filteredData := hedgedDays
    zoomRange2 := 86400000
    minMaxDate := (0, 86400000) }

/-- The hedged chart drawn. -/
def hedgedScene : Scene := draw hedgedChart

/-- The body of the candle of `x`, the times within `0.35 * spacing` of its
date, meets the range `[left, right]`. -/
def bodyIntersects (spacing left right : ℚ) (x : Sample) : Prop :=
  ∃ t : ℚ, (x.date.time : ℚ) - 7 / 10 * spacing / 2 ≤ t ∧
    t ≤ (x.date.time : ℚ) + 7 / 10 * spacing / 2 ∧ left ≤ t ∧ t ≤ right

/-- The window width is within half a millisecond of the span of the dataset
divided by the zoom factor. -/
def Coherent (c : Chart) : Prop :=
  |(c.zoomRange2 - c.zoomRange1) - (c.minMaxDate.2 - c.minMaxDate.1) / c.zoomFactor| ≤ 1 / 2

/-- The scene after `n` wheel steps in at pixel 0 of a 1000 pixel container. -/
def wheelIn (s : Scene) : ℕ → Scene
  | 0 => s
  | n + 1 => wheelZoom (wheelIn s n) 1000 2 0

/-- A chart before its first `draw()`: built by the constructor, then
reconfigured any number of times, whether `setConfig` returns or raises. -/
inductive Constructed : Chart → Prop
  | create (cfg : Config) (data : List Sample) (c : Chart) (h : construct cfg data = .ok c) :
      Constructed c
  | setConfig (c : Chart) (u : ConfigUpdate) (h : Constructed c) : Constructed (setConfig c u).1

/-- One public command or one pointer or wheel event on a drawn chart.
`destroy`, `setColors`, `getColors` and `getConfig` assign no field of the
model. -/
inductive Step : Scene → Scene → Prop
  | draw (s : Scene) : Step s (draw s.toChart)
  | destroy (s : Scene) : Step s s
  | setColors (s : Scene) : Step s s
  | getColors (s : Scene) : Step s s
  | getConfig (s : Scene) : Step s s
  | setConfig (s : Scene) (u : ConfigUpdate) : Step s (s.setConfig u).1
  | mouseDown (s : Scene) (x : ℚ) : Step s (mouseDown s x)
  | mouseMove (s : Scene) (containerWidth x : ℚ) : Step s (mouseMove s containerWidth x)
  | mouseUp (s t : Scene) (h : mouseUp s = some t) : Step s t
  | wheel (s : Scene) (containerWidth k x : ℚ) : Step s (wheelZoom s containerWidth k x)
  | mouseMoveLockers (s : Scene) : Step s (mouseMoveLockers s)
  | mouseLeaveLocker (s : Scene) : Step s (mouseLeaveLocker s)

/-- The scenes reachable from construction through the public commands and
the pointer and wheel handlers. -/
inductive Reachable : Scene → Prop
  | first (c : Chart) (h : Constructed c) : Reachable (draw c)
  | step (s t : Scene) (hs : Reachable s) (h : Step s t) : Reachable t

/-! ## Theorems -/

/-! ### Candle spacing: `#calculateCandleWidthDate` -/

theorem gapAt_of_lt (ts : List DateVal) (i : ℕ) (h : i + 1 < ts.length) :
    ∃ b, gapAt ts i = some b := by
  have h0 : i < ts.length := by omega
  simp [gapAt, parseDate, nanSub, List.getElem?_eq_getElem h, List.getElem?_eq_getElem h0]

theorem gapAt_of_ge (ts : List DateVal) (i : ℕ) (h : ts.length ≤ i + 1) :
    gapAt ts i = none := by
  simp [gapAt, parseDate, nanSub, List.getElem?_eq_none h]

theorem gapAt_eq_adjacentGaps (ts : List DateVal) (i : ℕ) :
    gapAt ts i = (adjacentGaps (ts.map fun d => d.time))[i]? := by
  unfold gapAt adjacentGaps parseDate
  rw [List.getElem?_zipWith, List.getElem?_tail, List.getElem?_map, List.getElem?_map]
  cases ts[i]? <;> cases ts[i + 1]? <;> rfl

theorem widthDateStep_inv (ts : List DateVal) (k j : ℕ) (hj : j + 1 < ts.length)
    (hmin : ∀ i, i ≤ k → i + 1 < ts.length → ∃ a b, gapAt ts j = some a ∧ gapAt ts i = some b ∧ a ≤ b) :
    ∃ j2, j2 + 1 < ts.length ∧
      widthDateStep ts (gapAt ts j, j, j + 1) (k + 1) = (gapAt ts j2, j2, j2 + 1) ∧
      ∀ i, i ≤ k + 1 → i + 1 < ts.length →
        ∃ a b, gapAt ts j2 = some a ∧ gapAt ts i = some b ∧ a ≤ b := by
  by_cases hk : k + 1 + 1 < ts.length
  · obtain ⟨a, -, ha, -, -⟩ := hmin 0 (Nat.zero_le _) (by omega)
    obtain ⟨b, hb⟩ := gapAt_of_lt ts (k + 1) hk
    by_cases hlt : b < a
    · refine ⟨k + 1, hk, ?_, ?_⟩
      · simp [widthDateStep, nanLt, ha, hb, hlt]
      · intro i hi hin
        rcases Nat.lt_or_ge i (k + 1) with h1 | h1
        · obtain ⟨a2, b2, ha2, hb2, hab⟩ := hmin i (by omega) hin
          rw [ha] at ha2
          cases ha2
          exact ⟨_, b2, hb, hb2, le_trans (le_of_lt hlt) hab⟩
        · have : i = k + 1 := by omega
          subst this
          exact ⟨_, _, hb, hb, le_refl _⟩
    · refine ⟨j, hj, ?_, ?_⟩
      · simp [widthDateStep, nanLt, ha, hb, hlt]
      · intro i hi hin
        rcases Nat.lt_or_ge i (k + 1) with h1 | h1
        · exact hmin i (by omega) hin
        · have : i = k + 1 := by omega
          subst this
          exact ⟨a, _, ha, hb, not_lt.mp hlt⟩
  · refine ⟨j, hj, ?_, ?_⟩
    · simp [widthDateStep, nanLt, gapAt_of_ge ts (k + 1) (by omega)]
    · intro i hi hin
      exact hmin i (by omega) hin

theorem widthDateLoop_inv (ts : List DateVal) (h : 2 ≤ ts.length) (k : ℕ) :
    ∃ j, j + 1 < ts.length ∧
      (List.range' 1 k).foldl (widthDateStep ts) (gapAt ts 0, 0, 1) = (gapAt ts j, j, j + 1) ∧
      ∀ i, i ≤ k → i + 1 < ts.length →
        ∃ a b, gapAt ts j = some a ∧ gapAt ts i = some b ∧ a ≤ b := by
  induction k with
  | zero =>
    refine ⟨0, by omega, by simp, ?_⟩
    intro i hi hin
    have : i = 0 := by omega
    subst this
    obtain ⟨b, hb⟩ := gapAt_of_lt ts 0 (by omega)
    exact ⟨b, b, hb, hb, le_refl _⟩
  | succ k ih =>
    obtain ⟨j, hj, hfold, hmin⟩ := ih
    rw [List.range'_1_concat, List.foldl_append, hfold]
    simpa [Nat.add_comm 1 k] using widthDateStep_inv ts k j hj hmin

theorem widthDateLoop_spec (ts : List DateVal) (h : 2 ≤ ts.length) :
    ∃ j, j + 1 < ts.length ∧ widthDateLoop ts = (gapAt ts j, j, j + 1) ∧
      ∀ i, i + 1 < ts.length → ∃ a b, gapAt ts j = some a ∧ gapAt ts i = some b ∧ a ≤ b := by
  obtain ⟨j, hj, hfold, hmin⟩ := widthDateLoop_inv ts h (ts.length - 1)
  exact ⟨j, hj, hfold, fun i hin => hmin i (by omega) hin⟩

theorem defaultSort_times_eq_dateSorted (samples : List Sample)
    (hc : TextOrderIsTimeOrder samples) :
    (defaultSort (samples.map fun x => x.date)).map (fun d => d.time) = dateSorted samples := by
  apply List.eq_of_perm_of_sorted (r := (· ≤ ·))
  · unfold dateSorted defaultSort
    have h1 := (List.perm_insertionSort textLe (samples.map fun x => x.date)).map (fun d => d.time)
    have h2 := List.perm_insertionSort (· ≤ ·) (samples.map fun x => x.date.time)
    refine h1.trans (List.Perm.trans ?_ h2.symm)
    simp [List.map_map, Function.comp_def]
  · have hs : (defaultSort (samples.map fun x => x.date)).Sorted textLe :=
      List.sorted_insertionSort _ _
    unfold List.Sorted at hs ⊢
    rw [List.pairwise_map]
    refine hs.imp_of_mem ?_
    intro a b ha hb hab
    have ha2 : a ∈ samples.map fun x => x.date := (List.perm_insertionSort _ _).subset ha
    have hb2 : b ∈ samples.map fun x => x.date := (List.perm_insertionSort _ _).subset hb
    obtain ⟨x, hx, rfl⟩ := List.mem_map.mp ha2
    obtain ⟨y, hy, rfl⟩ := List.mem_map.mp hb2
    exact hc x hx y hy hab
  · exact List.sorted_insertionSort _ _

theorem candleLockerWidthDate_spec (samples : List Sample) (h : 2 ≤ samples.length) :
    ∃ m, (calculateCandleWidthDate samples).1 = some m ∧
      m ∈ adjacentGaps ((defaultSort (samples.map fun x => x.date)).map fun d => d.time) ∧
      ∀ g ∈ adjacentGaps ((defaultSort (samples.map fun x => x.date)).map fun d => d.time),
        m ≤ g := by
  have hlen : 2 ≤ (defaultSort (samples.map fun x => x.date)).length := by
    simp [defaultSort, List.length_insertionSort, h]
  obtain ⟨j, hj, hloop, hmin⟩ := widthDateLoop_spec _ hlen
  obtain ⟨a, -, ha, -, -⟩ := hmin j hj
  refine ⟨a, ?_, ?_, ?_⟩
  · simp only [calculateCandleWidthDate, hloop]
    exact ha
  · rw [gapAt_eq_adjacentGaps] at ha
    exact List.getElem?_mem ha
  · intro g hg
    obtain ⟨i, hi, rfl⟩ := List.getElem_of_mem hg
    have hi2 : i + 1 < (defaultSort (samples.map fun x => x.date)).length := by
      have := hi
      simp only [adjacentGaps, List.length_zipWith, List.length_tail, List.length_map] at this
      omega
    obtain ⟨a2, b, ha2, hb, hab⟩ := hmin i hi2
    rw [ha] at ha2
    cases ha2
    rw [gapAt_eq_adjacentGaps, List.getElem?_eq_getElem hi] at hb
    cases hb
    exact hab

/-- The candle spacing on datasets whose dates sort as strings the way they
do in time: `candleLockerWidthDate` computed by `#calculateCandleWidthDate`
is at most every adjacent gap of the date-sorted sequence and, from two
samples on, equal to one of them. -/
theorem candleSpacing_min_gap (samples : List Sample) (hc : TextOrderIsTimeOrder samples) :
    SpacingIsMinGap samples := by
  have key : 2 ≤ samples.length →
      ∃ m, (calculateCandleWidthDate samples).1 = some m ∧
        m ∈ adjacentGaps (dateSorted samples) ∧ ∀ g ∈ adjacentGaps (dateSorted samples), m ≤ g := by
    intro h
    have := candleLockerWidthDate_spec samples h
    rwa [defaultSort_times_eq_dateSorted samples hc] at this
  constructor
  · intro g hg
    have hlen : 2 ≤ samples.length := by
      have h1 : 0 < (adjacentGaps (dateSorted samples)).length := List.length_pos_of_mem hg
      simp only [adjacentGaps, dateSorted, List.length_zipWith, List.length_tail,
        List.length_insertionSort, List.length_map] at h1
      omega
    obtain ⟨m, hm, -, hmin⟩ := key hlen
    exact ⟨m, hm, hmin g hg⟩
  · intro h
    obtain ⟨m, hm, hmem, -⟩ := key h
    exact ⟨m, hm, hmem⟩

theorem isoDays_order : TextOrderIsTimeOrder isoDays := by
  unfold TextOrderIsTimeOrder isoDays
  decide

theorem defaultSort_numericDays :
    defaultSort (numericDays.map fun x => x.date) =
      [.ofMillis 172800000, .ofMillis 345600000, .ofMillis 86400000] := by
  decide

theorem spacing_numericDays : (calculateCandleWidthDate numericDays).1 = some (-259200000) := by
  simp only [calculateCandleWidthDate, defaultSort_numericDays]
  norm_num [widthDateLoop, widthDateStep, gapAt, parseDate, nanSub, nanLt, List.range',
    DateVal.ofMillis]

theorem spacing_isoDays : (calculateCandleWidthDate isoDays).1 = some 86400000 := by
  have h : defaultSort (isoDays.map fun x => x.date) =
      [⟨"1970-01-02", 86400000⟩, ⟨"1970-01-03", 172800000⟩, ⟨"1970-01-05", 345600000⟩] := by
    decide
  simp only [calculateCandleWidthDate, h]
  norm_num [widthDateLoop, widthDateStep, gapAt, parseDate, nanSub, nanLt, List.range']

/-- Days 1, 2 and 4 written as ISO-8601 texts: string order is time order,
the spacing is the minimum gap, and it is one day. -/
theorem candleSpacing_min_gap_witness :
    TextOrderIsTimeOrder isoDays ∧ SpacingIsMinGap isoDays ∧
      (calculateCandleWidthDate isoDays).1 = some 86400000 :=
  ⟨isoDays_order, candleSpacing_min_gap isoDays isoDays_order, spacing_isoDays⟩

theorem gaps_numericDays : adjacentGaps (dateSorted numericDays) = [86400000, 86400000 * 2] := by
  have h : dateSorted numericDays = [86400000, 172800000, 345600000] := by decide
  rw [h]
  norm_num [adjacentGaps]

/-- Claim C1 at the failing input.  For days 1, 2 and 4 given as
epoch-millisecond numbers the comparator-less `times.sort()` orders the dates
as strings, day 2, day 4, day 1, and the spacing comes out as minus three
days, which is none of the gaps of the date-sorted sequence, whose least gap
is one day. -/
theorem numericDays_spacing_not_min_gap :
    (calculateCandleWidthDate numericDays).1 = some (-259200000) ∧
      ¬ SpacingIsMinGap numericDays := by
  refine ⟨spacing_numericDays, ?_⟩
  rintro ⟨-, h⟩
  obtain ⟨m, hm, hmem⟩ := h (by decide)
  rw [spacing_numericDays] at hm
  cases hm
  rw [gaps_numericDays] at hmem
  norm_num at hmem

/-! ### The constructor on the demo dataset -/

theorem sortWith_constructorComparator (data : List Sample) :
    sortWith constructorComparator data = data := by
  unfold sortWith
  apply List.Sorted.insertionSort_eq
  unfold List.Sorted
  rw [List.pairwise_iff_forall_sublist]
  intro a b _
  simp [constructorComparator, nanSub]

theorem toFixedLength_one : toFixedLength 1 0 = 1 := by
  have h : jsRound (|(1 : ℚ)| * 10 ^ 0) = 1 := by
    norm_num [jsRound]
  unfold toFixedLength
  rw [h]
  decide

theorem calculateCandleWidthDate_tenDays :
    calculateCandleWidthDate tenDays = (some 86400000, some 60480000) := by
  have h : defaultSort (tenDays.map fun x => x.date) = tenDays.map fun x => x.date := by
    decide
  simp only [calculateCandleWidthDate, h]
  norm_num [widthDateLoop, widthDateStep, gapAt, parseDate, nanSub, nanLt, List.range',
    tenDays, flatSample]

theorem construct_demo : construct demoConfig tenDays = .ok demoChart := by
  have h1 : d3max (tenDays.map fun x => x.high) = some 1 := by
    simp [d3max, tenDays, flatSample]
  have h2 : d3extent (tenDays.map fun x => parseDate (some x.date)) = some (0, 777600000) := by
    norm_num [d3extent, extentStep, tenDays, flatSample, parseDate]
  have h3 : calculateExtendConfigs 1 demoConfig = demoConfigExtended := by
    simp only [calculateExtendConfigs, demoConfig, toFixedLength_one, demoConfigExtended]
    norm_num
  simp only [construct, h1, sortWith_constructorComparator, h2, h3,
    calculateCandleWidthDate_tenDays, demoChart]

/-! ### Truncation, rounding and the time scale -/

theorem inWindow_some (w left right : ℚ) :
    inWindow (some w) left right = fun p =>
      decide (left - w < (p.date.time : ℚ) ∧ (p.date.time : ℚ) < right + w) := by
  funext p
  simp [inWindow]

theorem jsTrunc_sub_lt (q : ℚ) : |(jsTrunc q : ℚ) - q| < 1 := by
  unfold jsTrunc
  split
  · rw [abs_lt]
    constructor
    · have := Int.lt_floor_add_one q
      linarith
    · have := Int.floor_le q
      linarith
  · rw [abs_lt]
    constructor
    · have := Int.le_ceil q
      linarith
    · have := Int.ceil_lt_add_one q
      linarith

theorem jsTrunc_intCast (n : ℤ) : jsTrunc (n : ℚ) = n := by
  unfold jsTrunc
  split <;> simp

theorem jsTrunc_whole (q : ℚ) (n : ℤ) (h : q = (n : ℚ)) : (jsTrunc q : ℚ) = q := by
  rw [h, jsTrunc_intCast]

theorem invertTime_whole (sc : Scale) (y : ℚ) :
    (jsTrunc (sc.invertTime y) : ℚ) = sc.invertTime y :=
  jsTrunc_whole _ (jsTrunc (sc.invert y)) rfl

theorem jsRound_sub_le (q : ℚ) : |(jsRound q : ℚ) - q| ≤ 1 / 2 := by
  unfold jsRound
  rw [abs_le]
  constructor
  · have := Int.lt_floor_add_one (q + 1 / 2)
    linarith
  · have := Int.floor_le (q + 1 / 2)
    linarith

theorem invert_of_pos (sc : Scale) (h0 : sc.r0 = 0) (h : 0 < sc.r1) (y : ℚ) :
    sc.invert y = sc.d0 + y / sc.r1 * (sc.d1 - sc.d0) := by
  unfold Scale.invert bimap normalize interpolateNumber
  rw [h0]
  have h1 : ¬ sc.r1 < 0 := not_lt.mpr h.le
  have h2 : sc.r1 - 0 ≠ 0 := by simpa using h.ne'
  rw [if_neg h1, if_pos h2]
  simp only [sub_zero]
  ring

theorem d3extent_pair (a b : ℚ) : d3extent [some a, some b] = some (min a b, max a b) := by
  simp only [d3extent, List.foldl, extentStep]
  rcases lt_trichotomy a b with h | h | h
  · simp [h, min_eq_left h.le, max_eq_right h.le, not_lt.mpr h.le]
  · subst h
    simp
  · simp [h, min_eq_right h.le, max_eq_left h.le, not_lt.mpr h.le]

theorem d3extent_single (a : ℚ) : d3extent [some a, none] = some (a, a) := by
  simp [d3extent, List.foldl, extentStep]

/-! ### The three viewport commits, field by field -/

theorem handlePan_fields (s : Scene) (cw x : ℚ) :
    (handlePan s cw x).zoomRange1 = s.panTargetDate - x / cw * (s.zoomRange2 - s.zoomRange1) ∧
    (handlePan s cw x).zoomRange2 =
      s.panTargetDate - x / cw * (s.zoomRange2 - s.zoomRange1) + (s.zoomRange2 - s.zoomRange1) ∧
    (handlePan s cw x).data = s.data ∧
    (handlePan s cw x).candleWidthDate = s.candleWidthDate ∧
    (handlePan s cw x).zoomFactor = s.zoomFactor ∧
    (handlePan s cw x).filteredData = s.data.filter (inWindow s.candleWidthDate
      (handlePan s cw x).zoomRange1 (handlePan s cw x).zoomRange2) :=
  ⟨rfl, rfl, rfl, rfl, rfl, rfl⟩

theorem wheelZoom_fields (s : Scene) (cw k x : ℚ) :
    (wheelZoom s cw k x).zoomFactor = s.zoomFactor * (if k > 1 then 11 / 10 else 9 / 10) ∧
    (wheelZoom s cw k x).zoomRange1 =
      s.xScaleFunc.invertTime x - (jsRound ((jsRound ((s.minMaxDate.2 - s.minMaxDate.1) /
        (s.zoomFactor * (if k > 1 then 11 / 10 else 9 / 10))) : ℚ) * x / cw) : ℚ) ∧
    (wheelZoom s cw k x).zoomRange2 = (wheelZoom s cw k x).zoomRange1 +
      (jsRound ((s.minMaxDate.2 - s.minMaxDate.1) /
        (s.zoomFactor * (if k > 1 then 11 / 10 else 9 / 10))) : ℚ) ∧
    (wheelZoom s cw k x).data = s.data ∧
    (wheelZoom s cw k x).candleWidthDate = s.candleWidthDate ∧
    (wheelZoom s cw k x).filteredData = s.data.filter (inWindow s.candleWidthDate
      (wheelZoom s cw k x).zoomRange1 (wheelZoom s cw k x).zoomRange2) ∧
    (wheelZoom s cw k x).xScaleFunc = calculateXscale (wheelZoom s cw k x).toChart ∧
    (wheelZoom s cw k x).config = s.config :=
  ⟨rfl, rfl, rfl, rfl, rfl, rfl, rfl, rfl⟩

theorem wheelZoom_whole (s : Scene) (cw k x : ℚ) :
    (jsTrunc (wheelZoom s cw k x).zoomRange1 : ℚ) = (wheelZoom s cw k x).zoomRange1 ∧
    (jsTrunc (wheelZoom s cw k x).zoomRange2 : ℚ) = (wheelZoom s cw k x).zoomRange2 := by
  obtain ⟨-, h1, h2, -⟩ := wheelZoom_fields s cw k x
  have e1 : (jsTrunc (wheelZoom s cw k x).zoomRange1 : ℚ) = (wheelZoom s cw k x).zoomRange1 := by
    apply jsTrunc_whole _ (jsTrunc (s.xScaleFunc.invert x) -
      jsRound ((jsRound ((s.minMaxDate.2 - s.minMaxDate.1) /
        (s.zoomFactor * (if k > 1 then 11 / 10 else 9 / 10))) : ℚ) * x / cw))
    rw [h1]
    unfold Scale.invertTime
    push_cast
    rfl
  refine ⟨e1, ?_⟩
  apply jsTrunc_whole _ (jsTrunc (wheelZoom s cw k x).zoomRange1 +
    jsRound ((s.minMaxDate.2 - s.minMaxDate.1) /
      (s.zoomFactor * (if k > 1 then 11 / 10 else 9 / 10))))
  rw [h2]
  push_cast
  rw [e1]

theorem handleZoom_commit (s : Scene) (a b : ℚ) (he : d3extent [s.zoomPoint1, s.zoomPoint2] = some (a, b))
    (hne : s.xScaleFunc.invertTime a ≠ s.xScaleFunc.invertTime b) :
    ∃ s2, handleZoom s = some s2 ∧
      s2.zoomRange1 = s.xScaleFunc.invertTime a ∧ s2.zoomRange2 = s.xScaleFunc.invertTime b ∧
      s2.zoomFactor = (s.minMaxDate.2 - s.minMaxDate.1) /
        (s.xScaleFunc.invertTime b - s.xScaleFunc.invertTime a) ∧
      s2.data = s.data ∧ s2.candleWidthDate = s.candleWidthDate ∧
      s2.filteredData = s.data.filter (inWindow s.candleWidthDate s2.zoomRange1 s2.zoomRange2) ∧
      s2.minMaxDate = s.minMaxDate := by
  have h : ¬ (s.xScaleFunc.invertTime a - s.xScaleFunc.invertTime b = 0) := fun h =>
    hne (sub_eq_zero.mp h)
  simp only [handleZoom, he, h, if_false]
  exact ⟨_, rfl, rfl, rfl, rfl, rfl, rfl, rfl, rfl⟩

theorem handleZoom_degenerate (s : Scene) (a b : ℚ)
    (he : d3extent [s.zoomPoint1, s.zoomPoint2] = some (a, b))
    (heq : s.xScaleFunc.invertTime a = s.xScaleFunc.invertTime b) :
    handleZoom s = some s := by
  simp [handleZoom, he, heq]

/-! ### The filtered window -/

theorem construct_fields (cfg : Config) (data : List Sample) (c : Chart)
    (h : construct cfg data = .ok c) :
    c.data = data ∧ c.filteredData = data ∧
      c.candleLockerWidthDate = (calculateCandleWidthDate data).1 ∧
      c.candleWidthDate = (calculateCandleWidthDate data).1.map (fun r => r - r * (3 / 10)) ∧
      c.mode = .pan ∧ c.zoomFactor = 1 ∧ c.zoomRange1 = c.minMaxDate.1 ∧
      c.zoomRange2 = c.minMaxDate.2 := by
  unfold construct at h
  cases hm : d3max (data.map fun x => x.high) with
  | none => simp [hm] at h
  | some maxPrice =>
    simp only [hm, sortWith_constructorComparator] at h
    cases he : d3extent (data.map fun x => parseDate (some x.date)) with
    | none => simp [he] at h
    | some mm =>
      simp only [he] at h
      cases h
      exact ⟨rfl, rfl, rfl, rfl, rfl, rfl, rfl, rfl⟩

/-- Claim C2, amended.  The constructor sets `candleWidthDate` to `0.7` times
the candle spacing `candleLockerWidthDate` of the dataset, and after every
viewport commit (pan, wheel zoom, non-degenerate box zoom) the filtered window
is exactly the samples of `data` dated strictly between
`zoomRange1 - candleWidthDate` and `zoomRange2 + candleWidthDate`. -/
theorem filteredWindow_after_commit :
    (∀ cfg data c, construct cfg data = .ok c →
      c.data = data ∧ c.candleLockerWidthDate = (calculateCandleWidthDate data).1 ∧
      c.candleWidthDate = (calculateCandleWidthDate data).1.map fun r => r - r * (3 / 10)) ∧
    (∀ (s : Scene) (w : ℚ), s.candleWidthDate = some w →
      (∀ cw x, CommittedWindow s w (handlePan s cw x)) ∧
      (∀ cw k x, CommittedWindow s w (wheelZoom s cw k x)) ∧
      (∀ a b, d3extent [s.zoomPoint1, s.zoomPoint2] = some (a, b) →
        s.xScaleFunc.invertTime a ≠ s.xScaleFunc.invertTime b →
        ∃ s2, handleZoom s = some s2 ∧ CommittedWindow s w s2)) := by
  refine ⟨fun cfg data c h => ?_,
    fun s w hw => ⟨fun cw x => ?_, fun cw k x => ?_, fun a b he hne => ?_⟩⟩
  · obtain ⟨h1, -, h2, h3, -⟩ := construct_fields cfg data c h
    exact ⟨h1, h2, h3⟩
  · obtain ⟨-, -, h1, h2, -, h3⟩ := handlePan_fields s cw x
    refine ⟨h1, h2.trans hw, ?_⟩
    rw [h3, hw, inWindow_some]
  · obtain ⟨-, -, -, h1, h2, h3, -⟩ := wheelZoom_fields s cw k x
    refine ⟨h1, h2.trans hw, ?_⟩
    rw [h3, hw, inWindow_some]
  · obtain ⟨s2, hs, -, -, -, h1, h2, h3, -⟩ := handleZoom_commit s a b he hne
    refine ⟨s2, hs, h1, h2.trans hw, ?_⟩
    rw [h3, hw, inWindow_some]

/-- Claim C2, amended, at the demo scene panned to pixel 400. -/
theorem filteredWindow_after_commit_witness :
    demoScene.candleWidthDate = some 60480000 ∧
      CommittedWindow demoScene 60480000 (handlePan demoScene 1000 400) :=
  ⟨rfl, (filteredWindow_after_commit.2 demoScene 60480000 rfl).1 1000 400⟩

theorem demoScene_invertTime (x : ℚ) :
    demoScene.xScaleFunc.invertTime x = (jsTrunc (x * 777600) : ℚ) := by
  have h : demoScene.xScaleFunc = ⟨0, 777600000, 0, 1000⟩ := rfl
  unfold Scale.invertTime
  rw [invert_of_pos _ (by rw [h]) (by rw [h]; norm_num), h]
  congr 2
  ring

theorem pannedScene_range :
    pannedScene.zoomRange1 = 77760000 ∧ pannedScene.zoomRange2 = 855360000 := by
  have hp : pannedScene = handlePan (mouseDown demoScene 500) 1000 400 := by
    simp [pannedScene, mouseMove, mouseDown, demoScene, draw, demoChart, demoConfigExtended,
      demoConfig]
    norm_num
  have ht : (mouseDown demoScene 500).panTargetDate = 388800000 := by
    show demoScene.xScaleFunc.invertTime 500 = 388800000
    rw [demoScene_invertTime]
    norm_num [jsTrunc]
  have hr : (mouseDown demoScene 500).zoomRange2 - (mouseDown demoScene 500).zoomRange1
      = 777600000 := by
    show (777600000 : ℚ) - 0 = 777600000
    norm_num
  obtain ⟨h1, h2, -⟩ := handlePan_fields (mouseDown demoScene 500) 1000 400
  rw [hp, h1, h2, ht, hr]
  constructor <;> norm_num

theorem pannedScene_window : pannedScene.filteredData = tenDays.tail := by
  have hp : pannedScene = handlePan (mouseDown demoScene 500) 1000 400 := by
    simp [pannedScene, mouseMove, mouseDown, demoScene, draw, demoChart, demoConfigExtended,
      demoConfig]
    norm_num
  obtain ⟨h1, h2⟩ := pannedScene_range
  obtain ⟨-, -, -, -, -, h3⟩ := handlePan_fields (mouseDown demoScene 500) 1000 400
  rw [← hp, h1, h2] at h3
  rw [h3]
  have hd : (mouseDown demoScene 500).data = tenDays := rfl
  have hw : (mouseDown demoScene 500).candleWidthDate = some 60480000 := rfl
  rw [hd, hw]
  norm_num [tenDays, flatSample, inWindow, List.filter]

/-- Claim C2 as stated fails.  After the pan from pixel 500 to pixel 400 the
zoom range starts at 0.9 day; the closed interval padded by the spacing of one
day holds all ten samples, the filtered window leaves out day 0. -/
theorem pannedScene_window_not_closed_interval :
    pannedScene.candleLockerWidthDate = some 86400000 ∧
    pannedScene.zoomRange1 = 77760000 ∧ pannedScene.zoomRange2 = 855360000 ∧
    pannedScene.filteredData = tenDays.tail ∧
    pannedScene.data.filter (inClosedWindow 86400000 pannedScene.zoomRange1
      pannedScene.zoomRange2) = tenDays ∧
    pannedScene.filteredData ≠ pannedScene.data.filter (inClosedWindow 86400000
      pannedScene.zoomRange1 pannedScene.zoomRange2) := by
  have hc : pannedScene.data.filter (inClosedWindow 86400000 pannedScene.zoomRange1
      pannedScene.zoomRange2) = tenDays := by
    rw [pannedScene_range.1, pannedScene_range.2]
    have hd : pannedScene.data = tenDays := rfl
    rw [hd]
    norm_num [tenDays, flatSample, inClosedWindow, List.filter]
  refine ⟨rfl, pannedScene_range.1, pannedScene_range.2, pannedScene_window, hc, ?_⟩
  rw [hc, pannedScene_window]
  intro h
  have := congrArg List.length h
  simp [tenDays] at this

/-! ### Panning -/

/-- Claim C3.  `#handlePan(x)` commits the zoom range that starts at
`anchor - (x / width) * (tEnd - tStart)` and ends one window width later, so
the width `tEnd - tStart` is the same before and after the pan. -/
theorem handlePan_commits (s : Scene) (cw x : ℚ) (_hcw : cw ≠ 0) :
    (handlePan s cw x).zoomRange1 = s.panTargetDate - x / cw * (s.zoomRange2 - s.zoomRange1) ∧
    (handlePan s cw x).zoomRange2 =
      s.panTargetDate - x / cw * (s.zoomRange2 - s.zoomRange1) + (s.zoomRange2 - s.zoomRange1) ∧
    (handlePan s cw x).zoomRange2 - (handlePan s cw x).zoomRange1 =
      s.zoomRange2 - s.zoomRange1 := by
  obtain ⟨h1, h2, -⟩ := handlePan_fields s cw x
  refine ⟨h1, h2, ?_⟩
  rw [h1, h2]
  ring

/-- Claim C3 at the demo scene, container width 1000 and pixel 400. -/
theorem handlePan_commits_witness :
    (1000 : ℚ) ≠ 0 ∧
    (handlePan demoScene 1000 400).zoomRange2 - (handlePan demoScene 1000 400).zoomRange1 =
      demoScene.zoomRange2 - demoScene.zoomRange1 :=
  ⟨by norm_num, (handlePan_commits demoScene 1000 400 (by norm_num)).2.2⟩

theorem mouseDown_pan (s : Scene) (x : ℚ) (hm : s.mode = .pan) :
    (mouseDown s x).panTargetDate = s.xScaleFunc.invertTime x ∧
    (mouseDown s x).zoomRange1 = s.zoomRange1 ∧ (mouseDown s x).zoomRange2 = s.zoomRange2 ∧
    (mouseDown s x).mode = .pan ∧ (mouseDown s x).isMouseDown = true ∧
    (mouseDown s x).config = s.config := by
  simp [mouseDown, hm]

theorem mouseMove_pan (s : Scene) (cw x : ℚ) (hm : s.mode = .pan) (hx : x ≤ s.config.width) :
    mouseMove (mouseDown s x) cw x = handlePan (mouseDown s x) cw x := by
  obtain ⟨-, -, -, h1, h2, h3⟩ := mouseDown_pan s x hm
  simp [mouseMove, h1, h2, h3, not_lt.mpr hx]

theorem convex_abs_lt (t a b : ℚ) (h0 : 0 ≤ t) (h1 : t ≤ 1) (ha : |a| < 1) (hb : |b| < 1) :
    |(1 - t) * a + t * b| < 1 := by
  rw [abs_lt] at ha hb ⊢
  obtain ⟨ha1, ha2⟩ := ha
  obtain ⟨hb1, hb2⟩ := hb
  rcases lt_or_eq_of_le h0 with ht | ht
  · have e1 := mul_pos ht (sub_pos.mpr hb2)
    have e2 := mul_pos ht (by linarith : (0 : ℚ) < b + 1)
    have e3 := mul_nonneg (sub_nonneg.mpr h1) (sub_pos.mpr ha2).le
    have e4 := mul_nonneg (sub_nonneg.mpr h1) (by linarith : (0 : ℚ) ≤ a + 1)
    constructor <;> nlinarith
  · subst ht
    constructor <;> linarith

theorem invert_fresh (s : Scene) (x : ℚ) (hf : s.Fresh) (hw : 0 < s.config.svgWidth) :
    s.xScaleFunc.invert x = (jsTrunc s.zoomRange1 : ℚ) +
      x / s.config.svgWidth * ((jsTrunc s.zoomRange2 : ℚ) - (jsTrunc s.zoomRange1 : ℚ)) := by
  rw [invert_of_pos s.xScaleFunc (by rw [hf]; rfl) (by rw [hf]; exact hw), hf]
  rfl

/-- Claim C4, amended.  In pan mode, on a drawn scene whose container is
`svgWidth > 0` pixels wide, a `mousedown` at `x` followed by a `mousemove` at
the same `x` (not beyond `config.width`) keeps the window width and moves both
ends of the zoom range by the same amount: the truncation error of the
anchor, `invertTime(x) - invert(x)`, plus the truncation errors of the two
ends of the zoom range, which the time scale drops from its domain, weighted
by `1 - x / svgWidth` and `x / svgWidth`.  For `0 ≤ x ≤ svgWidth` that is less
than two milliseconds in absolute value.  When both ends of the zoom range
are whole milliseconds it is the truncation error of the anchor alone, less
than one millisecond, and the zoom range is unchanged when the time under
`x` is a whole number of milliseconds too. -/
theorem pan_zero_displacement (s : Scene) (x : ℚ) (hm : s.mode = .pan) (hf : s.Fresh)
    (hw : 0 < s.config.svgWidth) (hx : x ≤ s.config.width) :
    (mouseMove (mouseDown s x) s.config.svgWidth x).zoomRange2 -
        (mouseMove (mouseDown s x) s.config.svgWidth x).zoomRange1 =
      s.zoomRange2 - s.zoomRange1 ∧
    (mouseMove (mouseDown s x) s.config.svgWidth x).zoomRange2 - s.zoomRange2 =
      (mouseMove (mouseDown s x) s.config.svgWidth x).zoomRange1 - s.zoomRange1 ∧
    (mouseMove (mouseDown s x) s.config.svgWidth x).zoomRange1 - s.zoomRange1 =
      (s.xScaleFunc.invertTime x - s.xScaleFunc.invert x) +
        ((1 - x / s.config.svgWidth) * ((jsTrunc s.zoomRange1 : ℚ) - s.zoomRange1) +
          x / s.config.svgWidth * ((jsTrunc s.zoomRange2 : ℚ) - s.zoomRange2)) ∧
    (0 ≤ x → x ≤ s.config.svgWidth →
      |(mouseMove (mouseDown s x) s.config.svgWidth x).zoomRange1 - s.zoomRange1| < 2 ∧
      |(mouseMove (mouseDown s x) s.config.svgWidth x).zoomRange2 - s.zoomRange2| < 2) ∧
    ((jsTrunc s.zoomRange1 : ℚ) = s.zoomRange1 → (jsTrunc s.zoomRange2 : ℚ) = s.zoomRange2 →
      (mouseMove (mouseDown s x) s.config.svgWidth x).zoomRange1 - s.zoomRange1 =
        s.xScaleFunc.invertTime x - s.xScaleFunc.invert x ∧
      |(mouseMove (mouseDown s x) s.config.svgWidth x).zoomRange1 - s.zoomRange1| < 1 ∧
      |(mouseMove (mouseDown s x) s.config.svgWidth x).zoomRange2 - s.zoomRange2| < 1 ∧
      (s.xScaleFunc.invertTime x = s.xScaleFunc.invert x →
        (mouseMove (mouseDown s x) s.config.svgWidth x).zoomRange1 = s.zoomRange1 ∧
        (mouseMove (mouseDown s x) s.config.svgWidth x).zoomRange2 = s.zoomRange2)) := by
  rw [mouseMove_pan s _ x hm hx]
  obtain ⟨h1, h2, -⟩ := handlePan_fields (mouseDown s x) s.config.svgWidth x
  obtain ⟨ht, hr1, hr2, -⟩ := mouseDown_pan s x hm
  rw [ht, hr1, hr2] at h1 h2
  have hinv := invert_fresh s x hf hw
  have hlt := jsTrunc_sub_lt (s.xScaleFunc.invert x)
  have hl1 := jsTrunc_sub_lt s.zoomRange1
  have hl2 := jsTrunc_sub_lt s.zoomRange2
  have hsame : (handlePan (mouseDown s x) s.config.svgWidth x).zoomRange2 - s.zoomRange2 =
      (handlePan (mouseDown s x) s.config.svgWidth x).zoomRange1 - s.zoomRange1 := by
    rw [h1, h2]
    ring
  have hd : (handlePan (mouseDown s x) s.config.svgWidth x).zoomRange1 - s.zoomRange1 =
      (s.xScaleFunc.invertTime x - s.xScaleFunc.invert x) +
        ((1 - x / s.config.svgWidth) * ((jsTrunc s.zoomRange1 : ℚ) - s.zoomRange1) +
          x / s.config.svgWidth * ((jsTrunc s.zoomRange2 : ℚ) - s.zoomRange2)) := by
    rw [h1, hinv]
    ring
  refine ⟨?_, hsame, hd, fun h0 hxw => ?_, fun e1 e2 => ?_⟩
  · rw [h1, h2]
    ring
  · have ht0 : 0 ≤ x / s.config.svgWidth := div_nonneg h0 hw.le
    have ht1 : x / s.config.svgWidth ≤ 1 := (div_le_one hw).mpr hxw
    have hc := convex_abs_lt (x / s.config.svgWidth) _ _ ht0 ht1 hl1 hl2
    have hb : |(handlePan (mouseDown s x) s.config.svgWidth x).zoomRange1 - s.zoomRange1| < 2 := by
      rw [hd]
      calc |(s.xScaleFunc.invertTime x - s.xScaleFunc.invert x) +
            ((1 - x / s.config.svgWidth) * ((jsTrunc s.zoomRange1 : ℚ) - s.zoomRange1) +
              x / s.config.svgWidth * ((jsTrunc s.zoomRange2 : ℚ) - s.zoomRange2))|
          ≤ |s.xScaleFunc.invertTime x - s.xScaleFunc.invert x| +
            |(1 - x / s.config.svgWidth) * ((jsTrunc s.zoomRange1 : ℚ) - s.zoomRange1) +
              x / s.config.svgWidth * ((jsTrunc s.zoomRange2 : ℚ) - s.zoomRange2)| :=
            abs_add _ _
        _ < 2 := by
            have := hlt
            unfold Scale.invertTime
            linarith
    exact ⟨hb, by rw [hsame]; exact hb⟩
  · have hd1 : (handlePan (mouseDown s x) s.config.svgWidth x).zoomRange1 - s.zoomRange1 =
        s.xScaleFunc.invertTime x - s.xScaleFunc.invert x := by
      rw [hd, e1, e2]
      ring
    refine ⟨hd1, ?_, ?_, fun he => ?_⟩
    · rw [hd1]
      exact hlt
    · rw [hsame, hd1]
      exact hlt
    · have hz : (handlePan (mouseDown s x) s.config.svgWidth x).zoomRange1 - s.zoomRange1 = 0 := by
        rw [hd1, he, sub_self]
      exact ⟨sub_eq_zero.mp hz, sub_eq_zero.mp (hsame.trans hz)⟩

theorem demoScene_facts :
    demoScene.mode = .pan ∧ demoScene.Fresh ∧ demoScene.config.svgWidth = 1000 ∧
    demoScene.config.width = 1022 ∧ demoScene.zoomRange1 = 0 ∧ demoScene.zoomRange2 = 777600000 ∧
    demoScene.minMaxDate = (0, 777600000) ∧ demoScene.zoomFactor = 1 :=
  ⟨rfl, rfl, rfl, rfl, rfl, rfl, rfl, rfl⟩

theorem wheeledScene_facts :
    wheeledScene.zoomFactor = 11 / 10 ∧ wheeledScene.zoomRange1 = 35345454 ∧
    wheeledScene.zoomRange2 = 742254545 := by
  obtain ⟨h1, h2, h3, -⟩ := wheelZoom_fields demoScene 1000 2 500
  have hm : demoScene.minMaxDate = (0, 777600000) := rfl
  have hz : demoScene.zoomFactor = 1 := rfl
  have hw : (jsRound ((demoScene.minMaxDate.2 - demoScene.minMaxDate.1) /
      (demoScene.zoomFactor * (if (2 : ℚ) > 1 then 11 / 10 else 9 / 10))) : ℚ) = 706909091 := by
    rw [hm, hz]
    norm_num [jsRound]
  rw [hw] at h2 h3
  have ht : demoScene.xScaleFunc.invertTime 500 = 388800000 := by
    rw [demoScene_invertTime]
    norm_num [jsTrunc]
  have h2b : wheeledScene.zoomRange1 = 35345454 := by
    show (wheelZoom demoScene 1000 2 500).zoomRange1 = _
    rw [h2, ht]
    norm_num [jsRound]
  refine ⟨?_, h2b, ?_⟩
  · show (wheelZoom demoScene 1000 2 500).zoomFactor = _
    rw [h1, hz]
    norm_num
  · show (wheelZoom demoScene 1000 2 500).zoomRange2 = _
    rw [h3]
    show wheeledScene.zoomRange1 + _ = _
    rw [h2b]
    norm_num

theorem wheeledScene_state :
    wheeledScene.mode = .pan ∧ wheeledScene.Fresh ∧ wheeledScene.config.svgWidth = 1000 ∧
    wheeledScene.config.width = 1022 :=
  ⟨rfl, rfl, rfl, rfl⟩

/-- Claim C4 as stated fails.  On the demo scene after one wheel step, pressing
and moving at pixel 1 without displacement shifts the start of the zoom range
from 35345454 to 35345453.909. -/
theorem wheeledScene_pan_moves :
    wheeledScene.mode = .pan ∧ wheeledScene.zoomRange1 < wheeledScene.zoomRange2 ∧
    wheeledScene.zoomRange1 = 35345454 ∧
    (mouseMove (mouseDown wheeledScene 1) 1000 1).zoomRange1 = 35345454 - 91 / 1000 ∧
    (mouseMove (mouseDown wheeledScene 1) 1000 1).zoomRange1 ≠ wheeledScene.zoomRange1 := by
  obtain ⟨-, h1, h2⟩ := wheeledScene_facts
  have hx : (1 : ℚ) ≤ wheeledScene.config.width := by
    rw [wheeledScene_state.2.2.2]
    norm_num
  have hsc : wheeledScene.xScaleFunc = ⟨35345454, 742254545, 0, 1000⟩ := by
    rw [wheeledScene_state.2.1]
    simp only [calculateXscale, h1, h2, wheeledScene_state.2.2.1]
    norm_num [jsTrunc]
  have hinv : wheeledScene.xScaleFunc.invertTime 1 = 36052363 := by
    unfold Scale.invertTime
    rw [invert_of_pos _ (by rw [hsc]) (by rw [hsc]; norm_num), hsc]
    norm_num [jsTrunc]
  have hv : (mouseMove (mouseDown wheeledScene 1) 1000 1).zoomRange1 = 35345454 - 91 / 1000 := by
    rw [mouseMove_pan wheeledScene 1000 1 rfl hx]
    obtain ⟨h3, -⟩ := handlePan_fields (mouseDown wheeledScene 1) 1000 1
    obtain ⟨ht, hr1, hr2, -⟩ := mouseDown_pan wheeledScene 1 rfl
    rw [h3, ht, hr1, hr2, hinv, h1, h2]
    norm_num
  refine ⟨rfl, ?_, h1, hv, ?_⟩
  · rw [h1, h2]
    norm_num
  · rw [hv, h1]
    norm_num

/-! ### Wheel zoom -/

/-- Claim C5, amended.  The wheel handler multiplies `zoomFactor` by `1.1`
when `e.transform.k > 1` and by `0.9` otherwise, sets
`newWidth = round(totalDatasetTimeSpan / zoomFactor)` with the updated factor
and commits `zoomRange = (left, left + newWidth)` with
`left = invertTime(x) - round(newWidth * x / width)`. -/
theorem wheelZoom_commits (s : Scene) (cw k x : ℚ) (_hcw : cw ≠ 0) (_hz : s.zoomFactor ≠ 0) :
    (wheelZoom s cw k x).zoomFactor = s.zoomFactor * (if k > 1 then 11 / 10 else 9 / 10) ∧
    (wheelZoom s cw k x).zoomRange1 =
      s.xScaleFunc.invertTime x -
        (jsRound ((jsRound ((s.minMaxDate.2 - s.minMaxDate.1) / (wheelZoom s cw k x).zoomFactor) : ℚ)
          * x / cw) : ℚ) ∧
    (wheelZoom s cw k x).zoomRange2 = (wheelZoom s cw k x).zoomRange1 +
      (jsRound ((s.minMaxDate.2 - s.minMaxDate.1) / (wheelZoom s cw k x).zoomFactor) : ℚ) :=
  ⟨rfl, rfl, rfl⟩

/-- Claim C5, amended, at the demo scene, one wheel step in at pixel 500. -/
theorem wheelZoom_commits_witness :
    (1000 : ℚ) ≠ 0 ∧ demoScene.zoomFactor ≠ 0 ∧
    (wheelZoom demoScene 1000 2 500).zoomFactor =
      demoScene.zoomFactor * (if (2 : ℚ) > 1 then 11 / 10 else 9 / 10) :=
  have h : demoScene.zoomFactor ≠ 0 := by
    rw [demoScene_facts.2.2.2.2.2.2.2]
    norm_num
  ⟨by norm_num, h, (wheelZoom_commits demoScene 1000 2 500 (by norm_num) h).1⟩

/-- Claim C5 as stated fails.  One wheel step in on the demo scene commits a
window of 706909091 ms, whereas the dataset span divided by the updated zoom
factor is 7776000000 / 11 ms. -/
theorem wheeledScene_width_rounded :
    wheeledScene = wheelZoom demoScene 1000 2 500 ∧
    wheeledScene.zoomFactor = 11 / 10 ∧
    wheeledScene.zoomRange2 - wheeledScene.zoomRange1 = 706909091 ∧
    (demoScene.minMaxDate.2 - demoScene.minMaxDate.1) / wheeledScene.zoomFactor =
      7776000000 / 11 ∧
    wheeledScene.zoomRange2 - wheeledScene.zoomRange1 ≠
      (demoScene.minMaxDate.2 - demoScene.minMaxDate.1) / wheeledScene.zoomFactor := by
  obtain ⟨h0, h1, h2⟩ := wheeledScene_facts
  have hm : demoScene.minMaxDate = (0, 777600000) := rfl
  refine ⟨rfl, h0, ?_, ?_, ?_⟩
  · rw [h1, h2]
    norm_num
  · rw [h0, hm]
    norm_num
  · rw [h0, hm, h1, h2]
    norm_num

theorem construct_ticks : construct demoConfig twoTicks = .ok tickChart := by
  have h1 : d3max (twoTicks.map fun x => x.high) = some 1 := by
    simp [d3max, twoTicks, flatSample]
  have h2 : d3extent (twoTicks.map fun x => parseDate (some x.date)) = some (0, 10) := by
    norm_num [d3extent, extentStep, twoTicks, flatSample, parseDate]
  have h3 : calculateExtendConfigs 1 demoConfig = demoConfigExtended := by
    simp only [calculateExtendConfigs, demoConfig, toFixedLength_one, demoConfigExtended]
    norm_num
  have h4 : calculateCandleWidthDate twoTicks = (some 10, some 7) := by
    have h : defaultSort (twoTicks.map fun x => x.date) = twoTicks.map fun x => x.date := by
      decide
    simp only [calculateCandleWidthDate, h]
    norm_num [widthDateLoop, widthDateStep, gapAt, parseDate, nanSub, nanLt, List.range',
      twoTicks, flatSample]
  simp only [construct, h1, sortWith_constructorComparator, h2, h3, h4, tickChart, demoChart]

theorem abs_int_le_one_of_lt (z : ℤ) (h : |(z : ℚ)| < 3 / 2) : |(z : ℚ)| ≤ 1 := by
  have h2 : |(z : ℚ)| < 2 := by linarith
  have h3 : |z| < 2 := by exact_mod_cast h2
  have h4 : |z| ≤ 1 := by omega
  exact_mod_cast h4

/-- Claim C6, amended.  After a wheel zoom at pixel `x` of a scene whose
container is `svgWidth > 0` pixels wide, the time under `x` in the new scale
differs from the whole-millisecond time `invertTime(x)` that was under it by
at most half a millisecond, by at most one millisecond once it is itself read
back as a date, and from the untruncated former time by less than 1.5 ms;
hence by less than one pixel-equivalent of time as soon as a pixel of the new
window spans at least 1.5 ms. -/
theorem wheelZoom_pivot (s : Scene) (k x : ℚ) (hw : 0 < s.config.svgWidth)
    (_hz : s.zoomFactor ≠ 0) :
    |(wheelZoom s s.config.svgWidth k x).xScaleFunc.invert x - s.xScaleFunc.invertTime x|
      ≤ 1 / 2 ∧
    |(wheelZoom s s.config.svgWidth k x).xScaleFunc.invertTime x - s.xScaleFunc.invertTime x|
      ≤ 1 ∧
    |(wheelZoom s s.config.svgWidth k x).xScaleFunc.invert x - s.xScaleFunc.invert x|
      < 3 / 2 ∧
    (3 / 2 ≤ ((wheelZoom s s.config.svgWidth k x).zoomRange2 -
        (wheelZoom s s.config.svgWidth k x).zoomRange1) / s.config.svgWidth →
      |(wheelZoom s s.config.svgWidth k x).xScaleFunc.invert x - s.xScaleFunc.invert x|
        < ((wheelZoom s s.config.svgWidth k x).zoomRange2 -
          (wheelZoom s s.config.svgWidth k x).zoomRange1) / s.config.svgWidth) := by
  obtain ⟨-, h1, h2, -, -, -, hf, hc⟩ := wheelZoom_fields s s.config.svgWidth k x
  have hw2 : 0 < (wheelZoom s s.config.svgWidth k x).config.svgWidth := by rw [hc]; exact hw
  have hinv : (wheelZoom s s.config.svgWidth k x).xScaleFunc.invert x =
      (wheelZoom s s.config.svgWidth k x).zoomRange1 + x / s.config.svgWidth *
        ((wheelZoom s s.config.svgWidth k x).zoomRange2 -
          (wheelZoom s s.config.svgWidth k x).zoomRange1) := by
    obtain ⟨w1, w2⟩ := wheelZoom_whole s s.config.svgWidth k x
    rw [invert_of_pos _ (by rw [hf]; rfl) (by rw [hf]; exact hw2), hf]
    simp only [calculateXscale, hc, w1, w2]
  have hr := jsRound_sub_le ((jsRound ((s.minMaxDate.2 - s.minMaxDate.1) /
      (s.zoomFactor * (if k > 1 then 11 / 10 else 9 / 10))) : ℚ) * x / s.config.svgWidth)
  have ha : (wheelZoom s s.config.svgWidth k x).xScaleFunc.invert x - s.xScaleFunc.invertTime x
      = -((jsRound ((jsRound ((s.minMaxDate.2 - s.minMaxDate.1) /
          (s.zoomFactor * (if k > 1 then 11 / 10 else 9 / 10))) : ℚ) * x / s.config.svgWidth) : ℚ)
        - (jsRound ((s.minMaxDate.2 - s.minMaxDate.1) /
          (s.zoomFactor * (if k > 1 then 11 / 10 else 9 / 10))) : ℚ) * x / s.config.svgWidth) := by
    rw [hinv, h2, h1]
    ring
  have hA : |(wheelZoom s s.config.svgWidth k x).xScaleFunc.invert x
      - s.xScaleFunc.invertTime x| ≤ 1 / 2 := by
    rw [ha, abs_neg]
    exact hr
  have hB := jsTrunc_sub_lt ((wheelZoom s s.config.svgWidth k x).xScaleFunc.invert x)
  have hC := jsTrunc_sub_lt (s.xScaleFunc.invert x)
  have hD : |(wheelZoom s s.config.svgWidth k x).xScaleFunc.invert x - s.xScaleFunc.invert x|
      < 3 / 2 := by
    have : (wheelZoom s s.config.svgWidth k x).xScaleFunc.invert x - s.xScaleFunc.invert x
        = ((wheelZoom s s.config.svgWidth k x).xScaleFunc.invert x
            - s.xScaleFunc.invertTime x)
          + (s.xScaleFunc.invertTime x - s.xScaleFunc.invert x) := by ring
    rw [this]
    calc |_ + _| ≤ |_| + |_| := abs_add _ _
      _ < 1 / 2 + 1 := add_lt_add_of_le_of_lt hA hC
      _ = 3 / 2 := by norm_num
  refine ⟨hA, ?_, hD, fun hpe => lt_of_lt_of_le hD hpe⟩
  · have hz : (wheelZoom s s.config.svgWidth k x).xScaleFunc.invertTime x
        - s.xScaleFunc.invertTime x
        = ((jsTrunc ((wheelZoom s s.config.svgWidth k x).xScaleFunc.invert x)
            - jsTrunc (s.xScaleFunc.invert x) : ℤ) : ℚ) := by
      simp [Scale.invertTime]
    rw [hz]
    apply abs_int_le_one_of_lt
    rw [← hz]
    have : (wheelZoom s s.config.svgWidth k x).xScaleFunc.invertTime x
        - s.xScaleFunc.invertTime x
        = ((wheelZoom s s.config.svgWidth k x).xScaleFunc.invertTime x
            - (wheelZoom s s.config.svgWidth k x).xScaleFunc.invert x)
          + ((wheelZoom s s.config.svgWidth k x).xScaleFunc.invert x
            - s.xScaleFunc.invertTime x) := by ring
    rw [this]
    calc |_ + _| ≤ |_| + |_| := abs_add _ _
      _ < 1 + 1 / 2 := add_lt_add_of_lt_of_le hB hA
      _ = 3 / 2 := by norm_num

/-- Claim C6, amended, at the demo scene, one wheel step in at pixel 500. -/
theorem wheelZoom_pivot_witness :
    0 < demoScene.config.svgWidth ∧ demoScene.zoomFactor ≠ 0 ∧
    |(wheelZoom demoScene demoScene.config.svgWidth 2 500).xScaleFunc.invert 500
      - demoScene.xScaleFunc.invertTime 500| ≤ 1 / 2 :=
  have h1 : 0 < demoScene.config.svgWidth := by
    rw [demoScene_facts.2.2.1]
    norm_num
  have h2 : demoScene.zoomFactor ≠ 0 := by
    rw [demoScene_facts.2.2.2.2.2.2.2]
    norm_num
  ⟨h1, h2, (wheelZoom_pivot demoScene 2 500 h1 h2).1⟩

theorem tickWheeled_facts :
    tickWheeled.zoomRange1 = 0 ∧ tickWheeled.zoomRange2 = 9 ∧
    tickWheeled.xScaleFunc = ⟨0, 9, 0, 1000⟩ ∧ tickScene.xScaleFunc = ⟨0, 10, 0, 1000⟩ := by
  obtain ⟨-, h2, h3, -, -, -, hf, -⟩ := wheelZoom_fields tickScene 1000 2 750
  have hsc : tickScene.xScaleFunc = ⟨0, 10, 0, 1000⟩ := rfl
  have hm : tickScene.minMaxDate = (0, 10) := rfl
  have hz : tickScene.zoomFactor = 1 := rfl
  have hw : (jsRound ((tickScene.minMaxDate.2 - tickScene.minMaxDate.1) /
      (tickScene.zoomFactor * (if (2 : ℚ) > 1 then 11 / 10 else 9 / 10))) : ℚ) = 9 := by
    rw [hm, hz]
    norm_num [jsRound]
  rw [hw] at h2 h3
  have ht : tickScene.xScaleFunc.invertTime 750 = 7 := by
    unfold Scale.invertTime
    rw [invert_of_pos _ (by rw [hsc]) (by rw [hsc]; norm_num), hsc]
    norm_num [jsTrunc]
  have h2b : tickWheeled.zoomRange1 = 0 := by
    show (wheelZoom tickScene 1000 2 750).zoomRange1 = _
    rw [h2, ht]
    norm_num [jsRound]
  have h3b : tickWheeled.zoomRange2 = 9 := by
    show (wheelZoom tickScene 1000 2 750).zoomRange2 = _
    rw [h3]
    show tickWheeled.zoomRange1 + _ = _
    rw [h2b]
    norm_num
  refine ⟨h2b, h3b, ?_, hsc⟩
  show (wheelZoom tickScene 1000 2 750).xScaleFunc = _
  rw [hf]
  show calculateXscale tickWheeled.toChart = _
  simp only [calculateXscale, h2b, h3b]
  rfl

/-- Claim C6 as stated fails.  For two ticks 10 ms apart on 1000 pixels, a
wheel step in at pixel 750 commits a 9 ms window, so one pixel is 0.009 ms;
the time under the pixel goes from 7.5 ms to 6.75 ms, and from 7 ms to 6 ms
when read as dates. -/
theorem tickWheeled_pivot_off :
    tickWheeled = wheelZoom tickScene 1000 2 750 ∧
    (tickWheeled.zoomRange2 - tickWheeled.zoomRange1) / 1000 = 9 / 1000 ∧
    tickScene.xScaleFunc.invert 750 = 15 / 2 ∧ tickScene.xScaleFunc.invertTime 750 = 7 ∧
    tickWheeled.xScaleFunc.invert 750 = 27 / 4 ∧ tickWheeled.xScaleFunc.invertTime 750 = 6 ∧
    ¬ (|tickWheeled.xScaleFunc.invert 750 - tickScene.xScaleFunc.invert 750|
        < (tickWheeled.zoomRange2 - tickWheeled.zoomRange1) / 1000) ∧
    ¬ (|tickWheeled.xScaleFunc.invertTime 750 - tickScene.xScaleFunc.invertTime 750|
        < (tickWheeled.zoomRange2 - tickWheeled.zoomRange1) / 1000) := by
  obtain ⟨h1, h2, h3, h4⟩ := tickWheeled_facts
  have a1 : tickScene.xScaleFunc.invert 750 = 15 / 2 := by
    rw [invert_of_pos _ (by rw [h4]) (by rw [h4]; norm_num), h4]
    norm_num
  have a2 : tickScene.xScaleFunc.invertTime 750 = 7 := by
    unfold Scale.invertTime
    rw [a1]
    norm_num [jsTrunc]
  have a3 : tickWheeled.xScaleFunc.invert 750 = 27 / 4 := by
    rw [invert_of_pos _ (by rw [h3]) (by rw [h3]; norm_num), h3]
    norm_num
  have a4 : tickWheeled.xScaleFunc.invertTime 750 = 6 := by
    unfold Scale.invertTime
    rw [a3]
    norm_num [jsTrunc]
  refine ⟨rfl, ?_, a1, a2, a3, a4, ?_, ?_⟩
  · rw [h1, h2]
    norm_num
  · rw [a1, a3, h1, h2]
    norm_num [abs_lt]
  · rw [a2, a4, h1, h2]
    norm_num [abs_lt]

/-! ### Monotonicity of the inverted time -/

theorem jsTrunc_mono {a b : ℚ} (h : a ≤ b) : jsTrunc a ≤ jsTrunc b := by
  unfold jsTrunc
  by_cases ha : 0 ≤ a
  · rw [if_pos ha, if_pos (le_trans ha h)]
    exact Int.floor_mono h
  · rw [if_neg ha]
    by_cases hb : 0 ≤ b
    · rw [if_pos hb]
      have h1 : ⌈a⌉ ≤ 0 := by
        rw [Int.ceil_le]
        push_neg at ha
        exact_mod_cast ha.le
      have h2 : 0 ≤ ⌊b⌋ := by
        rw [Int.le_floor]
        exact_mod_cast hb
      omega
    · rw [if_neg hb]
      exact Int.ceil_mono h

theorem invertTime_mono (sc : Scale) (h0 : sc.r0 = 0) (hr : 0 < sc.r1) (hd : sc.d0 ≤ sc.d1)
    {a b : ℚ} (h : a ≤ b) : sc.invertTime a ≤ sc.invertTime b := by
  unfold Scale.invertTime
  have : sc.invert a ≤ sc.invert b := by
    rw [invert_of_pos sc h0 hr, invert_of_pos sc h0 hr]
    have h1 : a / sc.r1 ≤ b / sc.r1 := div_le_div_of_nonneg_right h hr.le
    have h2 : 0 ≤ sc.d1 - sc.d0 := sub_nonneg.mpr hd
    nlinarith
  exact_mod_cast jsTrunc_mono this

/-! ### Panning from a fractional zoom range -/

theorem pannedTicks_facts :
    pannedTicks.mode = .pan ∧ pannedTicks.Fresh ∧ pannedTicks.config.svgWidth = 1000 ∧
    pannedTicks.config.width = 1022 ∧ pannedTicks.zoomRange1 = 5 / 2 ∧
    pannedTicks.zoomRange2 = 25 / 2 ∧ pannedTicks.xScaleFunc = ⟨2, 12, 0, 1000⟩ := by
  have hx : (500 : ℚ) ≤ tickScene.config.width := by
    have h : tickScene.config.width = 1022 := rfl
    rw [h]
    norm_num
  have hx2 : (250 : ℚ) ≤ (mouseDown tickScene 500).config.width := by
    have h : (mouseDown tickScene 500).config.width = 1022 := rfl
    rw [h]
    norm_num
  have hp : pannedTicks = handlePan (mouseDown tickScene 500) 1000 250 := by
    have hm : (mouseDown tickScene 500).mode = .pan := rfl
    have hd : (mouseDown tickScene 500).isMouseDown = true := rfl
    simp [pannedTicks, mouseMove, hm, hd, not_lt.mpr hx2]
  obtain ⟨h1, h2, -⟩ := handlePan_fields (mouseDown tickScene 500) 1000 250
  obtain ⟨ht, hr1, hr2, -⟩ := mouseDown_pan tickScene 500 rfl
  have hsc : tickScene.xScaleFunc = ⟨0, 10, 0, 1000⟩ := rfl
  have hinv : tickScene.xScaleFunc.invertTime 500 = 5 := by
    unfold Scale.invertTime
    rw [invert_of_pos _ (by rw [hsc]) (by rw [hsc]; norm_num), hsc]
    norm_num [jsTrunc]
  have z1 : tickScene.zoomRange1 = 0 := rfl
  have z2 : tickScene.zoomRange2 = 10 := rfl
  rw [ht, hr1, hr2, hinv, z1, z2] at h1 h2
  have e1 : pannedTicks.zoomRange1 = 5 / 2 := by
    rw [hp, h1]
    norm_num
  have e2 : pannedTicks.zoomRange2 = 25 / 2 := by
    rw [hp, h2]
    norm_num
  have hf : pannedTicks.Fresh := by
    rw [hp]
    rfl
  refine ⟨by rw [hp]; rfl, hf, by rw [hp]; rfl, by rw [hp]; rfl, e1, e2, ?_⟩
  rw [hf]
  have hw : pannedTicks.config.svgWidth = 1000 := by rw [hp]; rfl
  simp only [calculateXscale, e1, e2, hw]
  norm_num [jsTrunc]

theorem pannedTicks_pan_moves :
    pannedTicks.xScaleFunc.invert 875 = 43 / 4 ∧ pannedTicks.xScaleFunc.invertTime 875 = 10 ∧
    (mouseMove (mouseDown pannedTicks 875) 1000 875).zoomRange1 = 5 / 4 ∧
    (mouseMove (mouseDown pannedTicks 875) 1000 875).zoomRange2 = 45 / 4 ∧
    (mouseMove (mouseDown pannedTicks 875) 1000 875).zoomRange1 - pannedTicks.zoomRange1
      = -(5 / 4) := by
  obtain ⟨hm, -, -, hwd, e1, e2, hsc⟩ := pannedTicks_facts
  have hx : (875 : ℚ) ≤ pannedTicks.config.width := by
    rw [hwd]
    norm_num
  have a1 : pannedTicks.xScaleFunc.invert 875 = 43 / 4 := by
    rw [invert_of_pos _ (by rw [hsc]) (by rw [hsc]; norm_num), hsc]
    norm_num
  have a2 : pannedTicks.xScaleFunc.invertTime 875 = 10 := by
    unfold Scale.invertTime
    rw [a1]
    norm_num [jsTrunc]
  rw [mouseMove_pan pannedTicks 1000 875 hm hx]
  obtain ⟨h1, h2, -⟩ := handlePan_fields (mouseDown pannedTicks 875) 1000 875
  obtain ⟨ht, hr1, hr2, -⟩ := mouseDown_pan pannedTicks 875 hm
  rw [ht, hr1, hr2, a2, e1, e2] at h1 h2
  refine ⟨a1, a2, ?_, ?_, ?_⟩
  · rw [h1]
    norm_num
  · rw [h2]
    norm_num
  · rw [h1, e1]
    norm_num

/-- Claim C4, amended, at the two ticks panned to the zoom range
`(2.5, 12.5)` and pixel 875, where the range moves by 1.25 ms
(`pannedTicks_pan_moves`). -/
theorem pan_zero_displacement_witness :
    pannedTicks.mode = .pan ∧ pannedTicks.Fresh ∧ 0 < pannedTicks.config.svgWidth ∧
    (875 : ℚ) ≤ pannedTicks.config.width ∧ (0 : ℚ) ≤ 875 ∧
    (875 : ℚ) ≤ pannedTicks.config.svgWidth ∧
    |(mouseMove (mouseDown pannedTicks 875) pannedTicks.config.svgWidth 875).zoomRange1
      - pannedTicks.zoomRange1| < 2 :=
  have h1 : 0 < pannedTicks.config.svgWidth := by
    rw [pannedTicks_facts.2.2.1]
    norm_num
  have h2 : (875 : ℚ) ≤ pannedTicks.config.width := by
    rw [pannedTicks_facts.2.2.2.1]
    norm_num
  have h3 : (875 : ℚ) ≤ pannedTicks.config.svgWidth := by
    rw [pannedTicks_facts.2.2.1]
    norm_num
  ⟨pannedTicks_facts.1, pannedTicks_facts.2.1, h1, h2, by norm_num, h3,
    ((pan_zero_displacement pannedTicks 875 pannedTicks_facts.1 pannedTicks_facts.2.1 h1
      h2).2.2.2.1 (by norm_num) h3).1⟩

/-! ### Box zoom -/

/-- Claim C7.  With selection points `p1` and `p2` whose inverted times
differ, `#handleZoom` commits
`zoomRange = (invertTime(min p1 p2), invertTime(max p1 p2))`; on a drawn scene
with positive width and `tStart ≤ tEnd` the committed start is before the
committed end. -/
theorem handleZoom_range (s : Scene) (p1 p2 : ℚ) (h1 : s.zoomPoint1 = some p1)
    (h2 : s.zoomPoint2 = some p2)
    (hne : s.xScaleFunc.invertTime (min p1 p2) ≠ s.xScaleFunc.invertTime (max p1 p2)) :
    ∃ s2, handleZoom s = some s2 ∧
      s2.zoomRange1 = s.xScaleFunc.invertTime (min p1 p2) ∧
      s2.zoomRange2 = s.xScaleFunc.invertTime (max p1 p2) ∧
      (s.Fresh → 0 < s.config.svgWidth → s.zoomRange1 ≤ s.zoomRange2 →
        s2.zoomRange1 < s2.zoomRange2) := by
  have he : d3extent [s.zoomPoint1, s.zoomPoint2] = some (min p1 p2, max p1 p2) := by
    rw [h1, h2, d3extent_pair]
  obtain ⟨s2, hs, hr1, hr2, -⟩ := handleZoom_commit s _ _ he hne
  refine ⟨s2, hs, hr1, hr2, fun hf hw hd => ?_⟩
  rw [hr1, hr2]
  have hmono : s.xScaleFunc.invertTime (min p1 p2) ≤ s.xScaleFunc.invertTime (max p1 p2) := by
    apply invertTime_mono
    · rw [hf]; rfl
    · rw [hf]; exact hw
    · rw [hf]
      show ((jsTrunc s.zoomRange1 : ℤ) : ℚ) ≤ ((jsTrunc s.zoomRange2 : ℤ) : ℚ)
      exact_mod_cast jsTrunc_mono hd
    · exact min_le_max
  exact lt_of_le_of_ne hmono hne

theorem draggedScene_facts :
    draggedScene.zoomPoint1 = some 50 ∧ draggedScene.zoomPoint2 = some 200 ∧
    draggedScene.xScaleFunc = demoScene.xScaleFunc ∧ draggedScene.mode = .zoom ∧
    draggedScene.minMaxDate = (0, 777600000) ∧ draggedScene.zoomRange1 = 0 ∧
    draggedScene.zoomRange2 = 777600000 := by
  have h : draggedScene = { mouseDown zoomDemo 50 with zoomPoint2 := some 200 } := by
    have hx : ¬ ((200 : ℚ) > 1022) := by norm_num
    simp [draggedScene, mouseMove, mouseDown, zoomDemo, demoScene, draw, demoChart,
      demoConfigExtended, demoConfig, hx]
  rw [h]
  exact ⟨rfl, rfl, rfl, rfl, rfl, rfl, rfl⟩

theorem draggedScene_times :
    draggedScene.xScaleFunc.invertTime (min 50 200) = 38880000 ∧
    draggedScene.xScaleFunc.invertTime (max 50 200) = 155520000 := by
  rw [draggedScene_facts.2.2.1, demoScene_invertTime, demoScene_invertTime]
  constructor <;> norm_num [jsTrunc]

/-- Claim C7 at the ten-day demo scene of 1000 pixels with the selection dragged
from pixel 50 to pixel 200. -/
theorem handleZoom_range_witness :
    draggedScene.zoomPoint1 = some 50 ∧ draggedScene.zoomPoint2 = some 200 ∧
    draggedScene.xScaleFunc.invertTime (min 50 200) ≠
      draggedScene.xScaleFunc.invertTime (max 50 200) ∧
    ∃ s2, handleZoom draggedScene = some s2 ∧
      s2.zoomRange1 = draggedScene.xScaleFunc.invertTime (min 50 200) ∧
      s2.zoomRange2 = draggedScene.xScaleFunc.invertTime (max 50 200) ∧
      (draggedScene.Fresh → 0 < draggedScene.config.svgWidth →
        draggedScene.zoomRange1 ≤ draggedScene.zoomRange2 → s2.zoomRange1 < s2.zoomRange2) :=
  have hne : draggedScene.xScaleFunc.invertTime (min 50 200) ≠
      draggedScene.xScaleFunc.invertTime (max 50 200) := by
    rw [draggedScene_times.1, draggedScene_times.2]
    norm_num
  ⟨draggedScene_facts.1, draggedScene_facts.2.1, hne,
    handleZoom_range draggedScene 50 200 draggedScene_facts.1 draggedScene_facts.2.1 hne⟩

/-- Claim C8, amended.  A non-degenerate box zoom sets `zoomFactor` to the time
span of the whole dataset, `minMaxDate[1] - minMaxDate[0]`, divided by the
width of the committed zoom range; this is the former window width over the
new one when the former zoom range was the whole dataset. -/
theorem handleZoom_zoomFactor (s : Scene) (a b : ℚ)
    (he : d3extent [s.zoomPoint1, s.zoomPoint2] = some (a, b))
    (hne : s.xScaleFunc.invertTime a ≠ s.xScaleFunc.invertTime b) :
    ∃ s2, handleZoom s = some s2 ∧
      s2.zoomFactor = (s.minMaxDate.2 - s.minMaxDate.1) / (s2.zoomRange2 - s2.zoomRange1) ∧
      (s.zoomRange1 = s.minMaxDate.1 → s.zoomRange2 = s.minMaxDate.2 →
        s2.zoomFactor = (s.zoomRange2 - s.zoomRange1) / (s2.zoomRange2 - s2.zoomRange1)) := by
  obtain ⟨s2, hs, hr1, hr2, hz, -⟩ := handleZoom_commit s a b he hne
  refine ⟨s2, hs, ?_, fun e1 e2 => ?_⟩
  · rw [hz, hr1, hr2]
  · rw [hz, hr1, hr2, e1, e2]

/-- Claim C8, amended, at the demo scene with the selection 50 to 200. -/
theorem handleZoom_zoomFactor_witness :
    d3extent [draggedScene.zoomPoint1, draggedScene.zoomPoint2] = some (50, 200) ∧
    draggedScene.xScaleFunc.invertTime 50 ≠ draggedScene.xScaleFunc.invertTime 200 ∧
    ∃ s2, handleZoom draggedScene = some s2 ∧
      s2.zoomFactor = (draggedScene.minMaxDate.2 - draggedScene.minMaxDate.1) /
        (s2.zoomRange2 - s2.zoomRange1) ∧
      (draggedScene.zoomRange1 = draggedScene.minMaxDate.1 →
        draggedScene.zoomRange2 = draggedScene.minMaxDate.2 →
        s2.zoomFactor = (draggedScene.zoomRange2 - draggedScene.zoomRange1) /
          (s2.zoomRange2 - s2.zoomRange1)) :=
  have he : d3extent [draggedScene.zoomPoint1, draggedScene.zoomPoint2] = some (50, 200) := by
    rw [draggedScene_facts.1, draggedScene_facts.2.1, d3extent_pair]
    norm_num
  have hne : draggedScene.xScaleFunc.invertTime 50 ≠ draggedScene.xScaleFunc.invertTime 200 := by
    rw [draggedScene_facts.2.2.1, demoScene_invertTime, demoScene_invertTime]
    norm_num [jsTrunc]
  ⟨he, hne, handleZoom_zoomFactor draggedScene 50 200 he hne⟩

/-! ### Gestures in zoom mode -/

theorem mouseDown_zoom (s : Scene) (x : ℚ) (hm : s.mode = .zoom) :
    (mouseDown s x).zoomPoint1 = some x ∧ (mouseDown s x).zoomPoint2 = s.zoomPoint2 ∧
    (mouseDown s x).isMouseDown = true ∧ SameSetting s (mouseDown s x) ∧
    SameView s (mouseDown s x) := by
  simp [mouseDown, hm, SameSetting, SameView]

theorem mouseMove_zoom (s : Scene) (cw x : ℚ) (hm : s.mode = .zoom) (hd : s.isMouseDown = true)
    (hx : x ≤ s.config.width) :
    (mouseMove s cw x).zoomPoint1 = s.zoomPoint1 ∧ (mouseMove s cw x).zoomPoint2 = some x ∧
    SameSetting s (mouseMove s cw x) ∧ SameView s (mouseMove s cw x) := by
  simp [mouseMove, hm, hd, not_lt.mpr hx, SameSetting, SameView]

theorem mouseUp_zoom_commit (s : Scene) (hm : s.mode = .zoom) (a b : ℚ)
    (he : d3extent [s.zoomPoint1, s.zoomPoint2] = some (a, b))
    (hne : s.xScaleFunc.invertTime a ≠ s.xScaleFunc.invertTime b) :
    ∃ s2, mouseUp s = some s2 ∧
      s2.zoomRange1 = s.xScaleFunc.invertTime a ∧ s2.zoomRange2 = s.xScaleFunc.invertTime b ∧
      s2.zoomFactor = (s.minMaxDate.2 - s.minMaxDate.1) /
        (s.xScaleFunc.invertTime b - s.xScaleFunc.invertTime a) ∧
      s2.filteredData = s.data.filter (inWindow s.candleWidthDate
        (s.xScaleFunc.invertTime a) (s.xScaleFunc.invertTime b)) ∧
      s2.xScaleFunc = ⟨s.xScaleFunc.invertTime a, s.xScaleFunc.invertTime b, 0, s.config.svgWidth⟩ ∧
      s2.zoomPoint1 = some 0 ∧ s2.zoomPoint2 = some 0 ∧ SameSetting s s2 := by
  have h : ¬ (s.xScaleFunc.invertTime a - s.xScaleFunc.invertTime b = 0) := fun h =>
    hne (sub_eq_zero.mp h)
  simp only [mouseUp, hm, handleZoom, he, h, if_false, Option.map_some']
  refine ⟨_, rfl, rfl, rfl, rfl, rfl, ?_, rfl, rfl, hm.symm ▸ rfl, rfl, rfl, rfl, rfl⟩
  show calculateXscale _ = _
  simp only [calculateXscale, invertTime_whole]

theorem mouseUp_zoom_degenerate (s : Scene) (hm : s.mode = .zoom) (a b : ℚ)
    (he : d3extent [s.zoomPoint1, s.zoomPoint2] = some (a, b))
    (heq : s.xScaleFunc.invertTime a = s.xScaleFunc.invertTime b) :
    ∃ s2, mouseUp s = some s2 ∧ s2.zoomPoint1 = some 0 ∧ s2.zoomPoint2 = some 0 ∧
      SameSetting s s2 ∧ SameView s s2 := by
  simp only [mouseUp, hm, handleZoom, he, heq, sub_self, if_true, Option.map_some']
  exact ⟨_, rfl, rfl, rfl, ⟨hm.symm ▸ rfl, rfl, rfl, rfl, rfl⟩, ⟨rfl, rfl, rfl, rfl, rfl⟩⟩

theorem zoom_gesture (s : Scene) (cw p1 p2 : ℚ) (hm : s.mode = .zoom)
    (hx : p2 ≤ s.config.width)
    (hne : s.xScaleFunc.invertTime (min p1 p2) ≠ s.xScaleFunc.invertTime (max p1 p2)) :
    ∃ s2, mouseUp (mouseMove (mouseDown s p1) cw p2) = some s2 ∧
      s2.zoomRange1 = s.xScaleFunc.invertTime (min p1 p2) ∧
      s2.zoomRange2 = s.xScaleFunc.invertTime (max p1 p2) ∧
      s2.zoomFactor = (s.minMaxDate.2 - s.minMaxDate.1) /
        (s.xScaleFunc.invertTime (max p1 p2) - s.xScaleFunc.invertTime (min p1 p2)) ∧
      s2.filteredData = s.data.filter (inWindow s.candleWidthDate
        (s.xScaleFunc.invertTime (min p1 p2)) (s.xScaleFunc.invertTime (max p1 p2))) ∧
      s2.xScaleFunc = ⟨s.xScaleFunc.invertTime (min p1 p2),
        s.xScaleFunc.invertTime (max p1 p2), 0, s.config.svgWidth⟩ ∧
      s2.zoomPoint1 = some 0 ∧ s2.zoomPoint2 = some 0 ∧ SameSetting s s2 := by
  obtain ⟨d1, -, d3, ⟨dm, dc, dmm, dd, dw⟩, ⟨-, -, -, -, dx⟩⟩ := mouseDown_zoom s p1 hm
  obtain ⟨m1, m2, ⟨mm, mc, mmm, md, mw⟩, ⟨-, -, -, -, mx⟩⟩ :=
    mouseMove_zoom (mouseDown s p1) cw p2 (dm.trans hm) d3 (by rw [dc]; exact hx)
  have he : d3extent [(mouseMove (mouseDown s p1) cw p2).zoomPoint1,
      (mouseMove (mouseDown s p1) cw p2).zoomPoint2] = some (min p1 p2, max p1 p2) := by
    rw [m1, m2, d1, d3extent_pair]
  have hsc : (mouseMove (mouseDown s p1) cw p2).xScaleFunc = s.xScaleFunc := mx.trans dx
  obtain ⟨s2, h1, h2, h3, h4, h5, h6, h7, h8, ⟨um, uc, umm, ud, uw⟩⟩ :=
    mouseUp_zoom_commit (mouseMove (mouseDown s p1) cw p2) (mm.trans (dm.trans hm)) _ _ he
      (by rw [hsc]; exact hne)
  rw [hsc] at h2 h3 h4 h5 h6
  rw [mmm.trans dmm] at h4
  rw [md.trans dd, mw.trans dw] at h5
  rw [mc.trans dc] at h6
  exact ⟨s2, h1, h2, h3, h4, h5, h6, h7, h8, um.trans (mm.trans dm), uc.trans (mc.trans dc),
    umm.trans (mmm.trans dmm), ud.trans (md.trans dd), uw.trans (mw.trans dw)⟩

theorem click_first (s : Scene) (x : ℚ) (hm : s.mode = .zoom) (h2 : s.zoomPoint2 = none) :
    ∃ s2, mouseUp (mouseDown s x) = some s2 ∧ s2.zoomPoint1 = some 0 ∧ s2.zoomPoint2 = some 0 ∧
      SameSetting s s2 ∧ SameView s s2 := by
  obtain ⟨d1, d2, -, ⟨dm, dc, dmm, dd, dw⟩, ⟨v1, v2, v3, v4, v5⟩⟩ := mouseDown_zoom s x hm
  have he : d3extent [(mouseDown s x).zoomPoint1, (mouseDown s x).zoomPoint2] = some (x, x) := by
    rw [d1, d2, h2, d3extent_single]
  obtain ⟨s2, h1, h3, h4, ⟨um, uc, umm, ud, uw⟩, ⟨w1, w2, w3, w4, w5⟩⟩ :=
    mouseUp_zoom_degenerate (mouseDown s x) (dm.trans hm) x x he rfl
  exact ⟨s2, h1, h3, h4,
    ⟨um.trans dm, uc.trans dc, umm.trans dmm, ud.trans dd, uw.trans dw⟩,
    ⟨w1.trans v1, w2.trans v2, w3.trans v3, w4.trans v4, w5.trans v5⟩⟩

theorem click_later (s : Scene) (x : ℚ) (hm : s.mode = .zoom) (h2 : s.zoomPoint2 = some 0)
    (hne : s.xScaleFunc.invertTime (min x 0) ≠ s.xScaleFunc.invertTime (max x 0)) :
    ∃ s2, mouseUp (mouseDown s x) = some s2 ∧
      s2.zoomRange1 = s.xScaleFunc.invertTime (min x 0) ∧
      s2.zoomRange2 = s.xScaleFunc.invertTime (max x 0) ∧
      s2.zoomFactor = (s.minMaxDate.2 - s.minMaxDate.1) /
        (s.xScaleFunc.invertTime (max x 0) - s.xScaleFunc.invertTime (min x 0)) ∧
      s2.filteredData = s.data.filter (inWindow s.candleWidthDate
        (s.xScaleFunc.invertTime (min x 0)) (s.xScaleFunc.invertTime (max x 0))) := by
  obtain ⟨d1, d2, -, ⟨dm, dc, dmm, dd, dw⟩, ⟨-, -, -, -, dx⟩⟩ := mouseDown_zoom s x hm
  have he : d3extent [(mouseDown s x).zoomPoint1, (mouseDown s x).zoomPoint2]
      = some (min x 0, max x 0) := by
    rw [d1, d2, h2, d3extent_pair]
  obtain ⟨s2, h1, h3, h4, h5, h6, -⟩ :=
    mouseUp_zoom_commit (mouseDown s x) (dm.trans hm) _ _ he (by rw [dx]; exact hne)
  rw [dx] at h3 h4 h5 h6
  rw [dmm] at h5
  rw [dd, dw] at h6
  exact ⟨s2, h1, h3, h4, h5, h6⟩

theorem zoomDemo_facts :
    zoomDemo.mode = .zoom ∧ zoomDemo.config.width = 1022 ∧ zoomDemo.config.svgWidth = 1000 ∧
    zoomDemo.xScaleFunc = demoScene.xScaleFunc ∧ zoomDemo.minMaxDate = (0, 777600000) ∧
    zoomDemo.zoomPoint2 = none ∧ zoomDemo.data = tenDays ∧
    zoomDemo.candleWidthDate = some 60480000 ∧ zoomDemo.zoomRange1 = 0 ∧
    zoomDemo.zoomRange2 = 777600000 ∧ zoomDemo.zoomFactor = 1 ∧ zoomDemo.filteredData = tenDays :=
  ⟨rfl, rfl, rfl, rfl, rfl, rfl, rfl, rfl, rfl, rfl, rfl, rfl⟩

/-- Claim C8 as stated fails.  After the box zoom 50 to 200 the window is
116640000 ms wide; a second box zoom 0 to 500 halves it, yet `zoomFactor`
becomes 40 / 3, not 2. -/
theorem second_zoom_factor_not_relative :
    ∃ s1 s2, mouseUp (mouseMove (mouseDown zoomDemo 50) 1000 200) = some s1 ∧
      mouseUp (mouseMove (mouseDown s1 0) 1000 500) = some s2 ∧
      s1.zoomRange1 = 38880000 ∧ s1.zoomRange2 = 155520000 ∧
      s2.zoomRange1 = 38880000 ∧ s2.zoomRange2 = 97200000 ∧
      s2.zoomFactor = 40 / 3 ∧
      (s1.zoomRange2 - s1.zoomRange1) / (s2.zoomRange2 - s2.zoomRange1) = 2 ∧
      s2.zoomFactor ≠ (s1.zoomRange2 - s1.zoomRange1) / (s2.zoomRange2 - s2.zoomRange1) := by
  obtain ⟨zm, zw, zs, zx, zmm, -⟩ := zoomDemo_facts
  have a1 : zoomDemo.xScaleFunc.invertTime (min 50 200) = 38880000 := by
    rw [zx, demoScene_invertTime]
    norm_num [jsTrunc]
  have a2 : zoomDemo.xScaleFunc.invertTime (max 50 200) = 155520000 := by
    rw [zx, demoScene_invertTime]
    norm_num [jsTrunc]
  obtain ⟨s1, h1, r1, r2, -, -, x1, -, -, ⟨m1, c1, mm1, -, -⟩⟩ :=
    zoom_gesture zoomDemo 1000 50 200 zm (by rw [zw]; norm_num) (by rw [a1, a2]; norm_num)
  rw [a1] at r1 x1
  rw [a2] at r2 x1
  rw [zs] at x1
  have b1 : s1.xScaleFunc.invertTime (min 0 500) = 38880000 := by
    unfold Scale.invertTime
    rw [invert_of_pos _ (by rw [x1]) (by rw [x1]; norm_num), x1]
    norm_num [jsTrunc]
  have b2 : s1.xScaleFunc.invertTime (max 0 500) = 97200000 := by
    unfold Scale.invertTime
    rw [invert_of_pos _ (by rw [x1]) (by rw [x1]; norm_num), x1]
    norm_num [jsTrunc]
  obtain ⟨s2, h2, q1, q2, q3, -⟩ :=
    zoom_gesture s1 1000 0 500 (m1.trans zm) (by rw [c1, zw]; norm_num)
      (by rw [b1, b2]; norm_num)
  rw [b1] at q1 q3
  rw [b2] at q2 q3
  rw [mm1, zmm] at q3
  refine ⟨s1, s2, h1, h2, r1, r2, q1, q2, ?_, ?_, ?_⟩
  · rw [q3]
    norm_num
  · rw [r1, r2, q1, q2]
    norm_num
  · rw [q3, r1, r2, q1, q2]
    norm_num

/-- Claim C9 at the failing input.  In zoom mode a first click at pixel 500
leaves zoom range, zoom factor and filtered window as they were, but resets
both selection points to `0`; a second click at pixel 500, again without any
movement, then zooms to the left half: the zoom range becomes
`(0, 388800000)`, the zoom factor 2 and the window the first six samples. -/
theorem second_click_zooms :
    ∃ s1 s2, mouseUp (mouseDown zoomDemo 500) = some s1 ∧
      mouseUp (mouseDown s1 500) = some s2 ∧
      s1.zoomRange1 = 0 ∧ s1.zoomRange2 = 777600000 ∧ s1.zoomFactor = 1 ∧
      s1.filteredData = tenDays ∧
      s2.zoomRange1 = 0 ∧ s2.zoomRange2 = 388800000 ∧ s2.zoomFactor = 2 ∧
      s2.filteredData = tenDays.take 6 := by
  obtain ⟨zm, zw, zs, zx, zmm, zp, zd, zc, z1, z2, zf, zfd⟩ := zoomDemo_facts
  obtain ⟨s1, h1, -, p2, ⟨m1, c1, mm1, d1, w1⟩, ⟨v1, v2, v3, v4, v5⟩⟩ :=
    click_first zoomDemo 500 zm zp
  have b1 : s1.xScaleFunc.invertTime (min 500 0) = 0 := by
    rw [v5, zx, demoScene_invertTime]
    norm_num [jsTrunc]
  have b2 : s1.xScaleFunc.invertTime (max 500 0) = 388800000 := by
    rw [v5, zx, demoScene_invertTime]
    norm_num [jsTrunc]
  obtain ⟨s2, h2, q1, q2, q3, q4⟩ :=
    click_later s1 500 (m1.trans zm) p2 (by rw [b1, b2]; norm_num)
  rw [b1] at q1 q3 q4
  rw [b2] at q2 q3 q4
  rw [mm1, zmm] at q3
  rw [d1, zd, w1, zc] at q4
  refine ⟨s1, s2, h1, h2, v1.trans z1, v2.trans z2, v3.trans zf, v4.trans zfd, q1, q2, ?_, ?_⟩
  · rw [q3]
    norm_num
  · rw [q4]
    norm_num [tenDays, flatSample, inWindow, List.filter]

/-! ### The price scale: `#calculateYscale` -/

theorem extent_foldl_some (vals : List (Option ℚ)) :
    ∀ (seen : List ℚ) (mn mx : ℚ), IsExtent seen mn mx →
      ∃ mn2 mx2, vals.foldl extentStep (some (mn, mx)) = some (mn2, mx2) ∧
        IsExtent (seen ++ vals.reduceOption) mn2 mx2 := by
  induction vals with
  | nil =>
    intro seen mn mx h
    exact ⟨mn, mx, rfl, by simpa using h⟩
  | cons a vals ih =>
    intro seen mn mx h
    cases a with
    | none =>
      simpa [List.reduceOption_cons_of_none, extentStep] using ih seen mn mx h
    | some v =>
      obtain ⟨h1, h2, h3⟩ := h
      have hstep : IsExtent (seen ++ [v]) (if mn > v then v else mn) (if mx < v then v else mx) := by
        refine ⟨?_, ?_, ?_⟩
        · split <;> simp [h1]
        · split <;> simp [h2]
        · intro u hu
          rw [List.mem_append, List.mem_singleton] at hu
          have hmm : mn ≤ mx := (h3 mn h1).2
          rcases hu with hu | rfl
          · obtain ⟨l1, l2⟩ := h3 u hu
            constructor
            · split
              · linarith
              · exact l1
            · split
              · linarith
              · exact l2
          · constructor
            · split
              · exact le_refl _
              · linarith
            · split
              · exact le_refl _
              · linarith
      obtain ⟨mn2, mx2, e, hx⟩ := ih (seen ++ [v]) _ _ hstep
      refine ⟨mn2, mx2, ?_, ?_⟩
      · simpa [extentStep] using e
      · simpa [List.reduceOption_cons_of_some, List.append_assoc] using hx

theorem d3extent_spec (vals : List (Option ℚ)) (h : vals.reduceOption ≠ []) :
    ∃ mn mx, d3extent vals = some (mn, mx) ∧ IsExtent vals.reduceOption mn mx := by
  induction vals with
  | nil => simp at h
  | cons a vals ih =>
    cases a with
    | none =>
      rw [List.reduceOption_cons_of_none] at h ⊢
      obtain ⟨mn, mx, e, hx⟩ := ih h
      exact ⟨mn, mx, by simpa [d3extent, extentStep] using e, hx⟩
    | some v =>
      have h0 : IsExtent [v] v v := ⟨by simp, by simp, by simp⟩
      obtain ⟨mn, mx, e, hx⟩ := extent_foldl_some vals [v] v v h0
      refine ⟨mn, mx, ?_, ?_⟩
      · simpa [d3extent, extentStep] using e
      · simpa [List.reduceOption_cons_of_some] using hx

theorem reduceOption_map_some_comp (f : Sample → ℚ) (l : List Sample) :
    (l.map fun x => some (f x)).reduceOption = l.map f := by
  induction l with
  | nil => rfl
  | cons a l ih => simp [List.reduceOption_cons_of_some, ih]

theorem yMinMax_nonempty (c : Chart) (h : c.filteredData ≠ []) :
    ∃ mn mx, IsExtent (presentPrices c.filteredData) mn mx ∧
      yMinMax c = (mx + mx * c.config.yPaddingScaleTop,
        mn - mn * c.config.yPaddingScaleBottom) := by
  have hred : (c.filteredData.map (fun x => some x.high)
        ++ c.filteredData.map (fun x => some x.low)
        ++ c.filteredData.map (fun x => x.sl)
        ++ c.filteredData.map (fun x => x.tp)).reduceOption = presentPrices c.filteredData := by
    simp only [presentPrices, List.reduceOption_append, reduceOption_map_some_comp]
  have hne : (c.filteredData.map (fun x => some x.high)
        ++ c.filteredData.map (fun x => some x.low)
        ++ c.filteredData.map (fun x => x.sl)
        ++ c.filteredData.map (fun x => x.tp)).reduceOption ≠ [] := by
    rw [hred]
    cases hfd : c.filteredData with
    | nil => exact absurd hfd h
    | cons a l => simp [presentPrices]
  obtain ⟨mn, mx, e, hx⟩ := d3extent_spec _ hne
  rw [hred] at hx
  refine ⟨mn, mx, hx, ?_⟩
  have hlen : ¬ c.filteredData.length = 0 := by
    rwa [List.length_eq_zero]
  simp only [yMinMax, hlen, if_false, e]

theorem yMinMax_empty (c : Chart) (h : c.filteredData = []) : yMinMax c = (0, 1) := by
  simp [yMinMax, h]

theorem apply_inverted (d0 d1 height : ℚ) (hd : d1 < d0) :
    (Scale.mk d0 d1 0 height).apply d0 = 0 ∧ (Scale.mk d0 d1 0 height).apply d1 = height ∧
    ∀ x, (Scale.mk d0 d1 0 height).apply x = height * ((d0 - x) / (d0 - d1)) := by
  have hne : d0 - d1 ≠ 0 := (sub_pos.mpr hd).ne'
  have key : ∀ x, (Scale.mk d0 d1 0 height).apply x = height * ((d0 - x) / (d0 - d1)) := by
    intro x
    simp only [Scale.apply, bimap, if_pos hd, normalize, if_pos hne, interpolateNumber]
    field_simp
  refine ⟨?_, ?_, key⟩
  · rw [key]
    simp
  · rw [key, div_self hne, mul_one]

/-- Claim C10.  For padding fractions that are non-negative and not both zero,
a positive `svgHeight` and positive prices, `#calculateYscale` builds a scale
onto `[0, svgHeight]` whose domain is `[0, 1]` for an empty window and
otherwise runs from the greatest present `high`/`low`/`sl`/`tp` raised by the
top fraction, which maps to pixel 0, to the least one lowered by the bottom
fraction, which maps to `svgHeight`; a larger price maps to a smaller pixel. -/
theorem calculateYscale_spec (c : Chart) (htop : 0 ≤ c.config.yPaddingScaleTop)
    (hbot : 0 ≤ c.config.yPaddingScaleBottom)
    (hpad : 0 < c.config.yPaddingScaleTop + c.config.yPaddingScaleBottom)
    (hh : 0 < c.config.svgHeight) (hpos : ∀ v ∈ presentPrices c.filteredData, 0 < v) :
    (c.filteredData = [] → calculateYscale c = ⟨0, 1, 0, c.config.svgHeight⟩) ∧
    (c.filteredData ≠ [] → ∃ mn mx, IsExtent (presentPrices c.filteredData) mn mx ∧
      calculateYscale c = ⟨mx + mx * c.config.yPaddingScaleTop,
        mn - mn * c.config.yPaddingScaleBottom, 0, c.config.svgHeight⟩ ∧
      (calculateYscale c).apply (mx + mx * c.config.yPaddingScaleTop) = 0 ∧
      (calculateYscale c).apply (mn - mn * c.config.yPaddingScaleBottom) = c.config.svgHeight ∧
      ∀ p q, p < q → (calculateYscale c).apply q < (calculateYscale c).apply p) := by
  constructor
  · intro h
    simp only [calculateYscale, yMinMax_empty c h]
  · intro h
    obtain ⟨mn, mx, hx, e⟩ := yMinMax_nonempty c h
    have hs : calculateYscale c = ⟨mx + mx * c.config.yPaddingScaleTop,
        mn - mn * c.config.yPaddingScaleBottom, 0, c.config.svgHeight⟩ := by
      simp only [calculateYscale, e]
    obtain ⟨h1, h2, h3⟩ := hx
    have hmn : 0 < mn := hpos mn h1
    have hle : mn ≤ mx := (h3 mn h1).2
    have hd : mn - mn * c.config.yPaddingScaleBottom < mx + mx * c.config.yPaddingScaleTop := by
      have e1 : 0 ≤ mx * c.config.yPaddingScaleTop := mul_nonneg (le_trans hmn.le hle) htop
      have e2 : 0 ≤ mn * c.config.yPaddingScaleBottom := mul_nonneg hmn.le hbot
      rcases lt_or_eq_of_le htop with ht | ht
      · have : 0 < mx * c.config.yPaddingScaleTop := mul_pos (lt_of_lt_of_le hmn hle) ht
        linarith
      · have hb : 0 < c.config.yPaddingScaleBottom := by linarith
        have : 0 < mn * c.config.yPaddingScaleBottom := mul_pos hmn hb
        linarith
    obtain ⟨a1, a2, a3⟩ := apply_inverted _ _ c.config.svgHeight hd
    refine ⟨mn, mx, ⟨h1, h2, h3⟩, hs, ?_, ?_, ?_⟩
    · rw [hs]; exact a1
    · rw [hs]; exact a2
    · intro p q hpq
      rw [hs, a3, a3]
      apply mul_lt_mul_of_pos_left _ hh
      apply div_lt_div_of_pos_right _ (sub_pos.mpr hd)
      linarith

/-- Claim C10 at the demo chart. -/
theorem calculateYscale_spec_witness :
    0 ≤ demoChart.config.yPaddingScaleTop ∧ 0 ≤ demoChart.config.yPaddingScaleBottom ∧
    0 < demoChart.config.yPaddingScaleTop + demoChart.config.yPaddingScaleBottom ∧
    0 < demoChart.config.svgHeight ∧ (∀ v ∈ presentPrices demoChart.filteredData, 0 < v) ∧
    demoChart.filteredData ≠ [] ∧
    ∃ mn mx, IsExtent (presentPrices demoChart.filteredData) mn mx ∧
      calculateYscale demoChart = ⟨mx + mx * demoChart.config.yPaddingScaleTop,
        mn - mn * demoChart.config.yPaddingScaleBottom, 0, demoChart.config.svgHeight⟩ ∧
      (calculateYscale demoChart).apply (mx + mx * demoChart.config.yPaddingScaleTop) = 0 ∧
      (calculateYscale demoChart).apply (mn - mn * demoChart.config.yPaddingScaleBottom)
        = demoChart.config.svgHeight ∧
      ∀ p q, p < q → (calculateYscale demoChart).apply q < (calculateYscale demoChart).apply p :=
  have h1 : 0 ≤ demoChart.config.yPaddingScaleTop := by
    norm_num [demoChart, demoConfigExtended, demoConfig]
  have h2 : 0 ≤ demoChart.config.yPaddingScaleBottom := by
    norm_num [demoChart, demoConfigExtended, demoConfig]
  have h3 : 0 < demoChart.config.yPaddingScaleTop + demoChart.config.yPaddingScaleBottom := by
    norm_num [demoChart, demoConfigExtended, demoConfig]
  have h4 : 0 < demoChart.config.svgHeight := by
    norm_num [demoChart, demoConfigExtended, demoConfig]
  have h5 : ∀ v ∈ presentPrices demoChart.filteredData, 0 < v := by
    simp [presentPrices, demoChart, tenDays, flatSample]
  have h6 : demoChart.filteredData ≠ [] := by
    simp [demoChart, tenDays]
  ⟨h1, h2, h3, h4, h5, h6, (calculateYscale_spec demoChart h1 h2 h3 h4 h5).2 h6⟩

/-! ### The constructor on few samples and on unsorted samples -/

theorem calculateCandleWidthDate_nil : calculateCandleWidthDate [] = (none, none) := by
  simp [calculateCandleWidthDate, defaultSort, widthDateLoop, gapAt, parseDate, nanSub]

theorem calculateCandleWidthDate_single (x : Sample) :
    calculateCandleWidthDate [x] = (none, none) := by
  simp [calculateCandleWidthDate, defaultSort, widthDateLoop, gapAt, parseDate, nanSub]

theorem construct_nil (cfg : Config) : construct cfg [] = .error .typeError := by
  simp [construct, d3max]

theorem construct_single (cfg : Config) (x : Sample) :
    ∃ c, construct cfg [x] = .ok c ∧ c.data = [x] ∧ c.candleLockerWidthDate = none ∧
      c.candleWidthDate = none := by
  have h1 : d3max ([x].map fun y => y.high) = some x.high := by
    simp [d3max]
  have h2 : d3extent ([x].map fun y => parseDate (some y.date))
      = some ((x.date.time : ℚ), (x.date.time : ℚ)) := by
    simp [d3extent, extentStep, parseDate]
  simp only [construct, h1, sortWith_constructorComparator, h2,
    calculateCandleWidthDate_single]
  exact ⟨_, rfl, rfl, rfl, rfl⟩

theorem d3max_cons_ne_none (v : ℚ) (l : List ℚ) : d3max (v :: l) ≠ none := by
  have h : ∀ (l : List ℚ) (m : ℚ), l.foldl (fun acc v => match acc with
      | none => some v
      | some m => some (if m < v then v else m)) (some m) ≠ none := by
    intro l
    induction l with
    | nil => intro m; simp
    | cons a l ih => intro m; simpa using ih _
  simpa [d3max] using h l v

theorem construct_ok_of_two (cfg : Config) (data : List Sample) (h : 2 ≤ data.length) :
    ∃ c m, construct cfg data = .ok c ∧ c.candleLockerWidthDate = some m := by
  obtain ⟨m, hm, -⟩ := candleLockerWidthDate_spec data h
  cases hd : data with
  | nil => simp [hd] at h
  | cons x l =>
    rw [← hd]
    cases h1 : d3max (data.map fun y => y.high) with
    | none =>
      rw [hd] at h1
      exact absurd h1 (d3max_cons_ne_none _ _)
    | some mp =>
      have hne : (data.map fun y => parseDate (some y.date)).reduceOption ≠ [] := by
        rw [hd]
        simp [parseDate, List.reduceOption_cons_of_some]
      obtain ⟨mn, mx, e, -⟩ := d3extent_spec _ hne
      simp only [construct, h1, sortWith_constructorComparator, e]
      exact ⟨_, m, rfl, hm⟩

/-- Claim C11, amended.  The constructor, which runs
`#calculateCandleWidthDate`, raises a `TypeError` on an empty dataset (from
`this.#maxPrice.toFixed`, before the spacing is computed); on a single sample
it returns a chart whose candle spacing and candle width are `NaN`; from two
samples on it returns a chart with a numeric candle spacing. -/
theorem construct_few_samples :
    (∀ cfg, construct cfg [] = .error .typeError) ∧
    (∀ cfg x, ∃ c, construct cfg [x] = .ok c ∧ c.candleLockerWidthDate = none ∧
      c.candleWidthDate = none) ∧
    (∀ cfg data, 2 ≤ data.length →
      ∃ c m, construct cfg data = .ok c ∧ c.candleLockerWidthDate = some m) := by
  refine ⟨construct_nil, fun cfg x => ?_, construct_ok_of_two⟩
  obtain ⟨c, h1, -, h2, h3⟩ := construct_single cfg x
  exact ⟨c, h1, h2, h3⟩

/-- Claim C11, amended, at the ten-day demo dataset. -/
theorem construct_few_samples_witness :
    2 ≤ tenDays.length ∧
    ∃ c m, construct demoConfig tenDays = .ok c ∧ c.candleLockerWidthDate = some m :=
  ⟨by decide, construct_few_samples.2.2 demoConfig tenDays (by decide)⟩

/-- Claim C11 as stated fails.  For the dataset of one sample, which has fewer
than 2 samples, the constructor raises no error: it returns a chart whose
candle spacing is `NaN`. -/
theorem oneSample_constructs :
    oneSample.length < 2 ∧
    (∃ c, construct demoConfig oneSample = .ok c ∧ c.candleLockerWidthDate = none) ∧
    ¬ ∃ e, construct demoConfig oneSample = .error e := by
  obtain ⟨c, h1, -, h2, -⟩ := construct_single demoConfig (flatSample ⟨"1970-01-01", 0⟩)
  refine ⟨by decide, ⟨c, h1, h2⟩, ?_⟩
  rintro ⟨e, he⟩
  rw [oneSample, h1] at he
  cases he

theorem construct_swapped : construct demoConfig swappedDays = .ok swappedChart := by
  have h1 : d3max (swappedDays.map fun x => x.high) = some 1 := by
    simp [d3max, swappedDays, flatSample]
  have h2 : d3extent (swappedDays.map fun x => parseDate (some x.date))
      = some (0, 86400000) := by
    norm_num [d3extent, extentStep, swappedDays, flatSample, parseDate]
  have h3 : calculateExtendConfigs 1 demoConfig = demoConfigExtended := by
    simp only [calculateExtendConfigs, demoConfig, toFixedLength_one, demoConfigExtended]
    norm_num
  have h4 : calculateCandleWidthDate swappedDays = (some 86400000, some 60480000) := by
    have h : defaultSort (swappedDays.map fun x => x.date)
        = [⟨"1970-01-01", 0⟩, ⟨"1970-01-02", 86400000⟩] := by
      decide
    simp only [calculateCandleWidthDate, h]
    norm_num [widthDateLoop, widthDateStep, gapAt, parseDate, nanSub, nanLt, List.range']
  simp only [construct, h1, sortWith_constructorComparator, h2, h3, h4, swappedChart, demoChart]

theorem construct_keeps_order (cfg : Config) (data : List Sample) (c : Chart)
    (h : construct cfg data = .ok c) : c.data = data :=
  (construct_fields cfg data c h).1

/-- Claim C15 at the failing input.  For day 1 followed by day 0 the
constructor returns a chart whose `data` is the input in the order given,
day 1 then day 0, which is not ascending by date. -/
theorem swappedDays_stay_unsorted :
    construct demoConfig swappedDays = .ok swappedChart ∧
    swappedChart.data = swappedDays ∧
    swappedChart.data.map (fun x => x.date.time) = [86400000, 0] ∧
    ¬ (swappedChart.data.map fun x => x.date.time).Sorted (· ≤ ·) := by
  refine ⟨construct_swapped, rfl, rfl, ?_⟩
  have h : swappedChart.data.map (fun x => x.date.time) = [86400000, 0] := rfl
  rw [h]
  decide

/-! ### Marker render sets -/

theorem truthy_iff (v : Option ℚ) : truthy v = true ↔ ∃ p, v = some p ∧ p ≠ 0 := by
  cases v with
  | none => simp [truthy]
  | some x => simp [truthy]

theorem construct_trade : construct demoConfig tradeDays = .ok tradeChart := by
  have h1 : d3max (tradeDays.map fun x => x.high) = some 1 := by
    simp [d3max, tradeDays, flatSample]
  have h2 : d3extent (tradeDays.map fun x => parseDate (some x.date))
      = some (0, 86400000) := by
    norm_num [d3extent, extentStep, tradeDays, flatSample, parseDate]
  have h3 : calculateExtendConfigs 1 demoConfig = demoConfigExtended := by
    simp only [calculateExtendConfigs, demoConfig, toFixedLength_one, demoConfigExtended]
    norm_num
  have h4 : calculateCandleWidthDate tradeDays = (some 86400000, some 60480000) := by
    have h : defaultSort (tradeDays.map fun x => x.date)
        = [⟨"1970-01-01", 0⟩, ⟨"1970-01-02", 86400000⟩] := by
      decide
    simp only [calculateCandleWidthDate, h]
    norm_num [widthDateLoop, widthDateStep, gapAt, parseDate, nanSub, nanLt, List.range']
  simp only [construct, h1, sortWith_constructorComparator, h2, h3, h4, tradeChart, demoChart]

theorem construct_hedged : construct demoConfig hedgedDays = .ok hedgedChart := by
  have h1 : d3max (hedgedDays.map fun x => x.high) = some 1 := by
    simp [d3max, hedgedDays, hedgedEntry, flatSample]
  have h2 : d3extent (hedgedDays.map fun x => parseDate (some x.date))
      = some (0, 86400000) := by
    norm_num [d3extent, extentStep, hedgedDays, hedgedEntry, flatSample, parseDate]
  have h3 : calculateExtendConfigs 1 demoConfig = demoConfigExtended := by
    simp only [calculateExtendConfigs, demoConfig, toFixedLength_one, demoConfigExtended]
    norm_num
  have h4 : calculateCandleWidthDate hedgedDays = (some 86400000, some 60480000) := by
    have h : defaultSort (hedgedDays.map fun x => x.date)
        = [⟨"1970-01-01", 0⟩, ⟨"1970-01-02", 86400000⟩] := by
      decide
    simp only [calculateCandleWidthDate, h]
    norm_num [widthDateLoop, widthDateStep, gapAt, parseDate, nanSub, nanLt, List.range']
  simp only [construct, h1, sortWith_constructorComparator, h2, h3, h4, hedgedChart, demoChart]

/-- Claim C12, amended.  In every scene the long render set is the window
samples with a truthy `long` and the short render set those with a truthy
`short`, and their markers are placed from that price.  The stop-loss and the
take-profit render sets are both the window samples with a truthy `short` or
`long`, whatever their `sl` and `tp`.  A rendered stop-loss marker lies at
`yScaleFunc(sl)` when the sample carries `sl`; when it does not,
`yScaleFunc` returns `undefined`, no `y` attribute is set and the marker lies
at the default `0`.  Likewise for take-profit and `tp`. -/
theorem marker_render_sets (s : Scene) :
    (∀ x, x ∈ createLongPositions s ↔ x ∈ s.filteredData ∧ ∃ p, x.long = some p ∧ p ≠ 0) ∧
    (∀ x, x ∈ createShortPositions s ↔ x ∈ s.filteredData ∧ ∃ p, x.short = some p ∧ p ≠ 0) ∧
    (∀ x ∈ createLongPositions s, ∃ p, x.long = some p ∧ longY s x = some (s.yScaleFunc.apply p)) ∧
    (∀ x ∈ createShortPositions s,
      ∃ p, x.short = some p ∧ shortY s x = some (s.yScaleFunc.apply p)) ∧
    (∀ x, x ∈ createStopLosses s ↔
      x ∈ s.filteredData ∧ ((∃ p, x.short = some p ∧ p ≠ 0) ∨ ∃ p, x.long = some p ∧ p ≠ 0)) ∧
    (∀ x, x ∈ createTakeProfits s ↔
      x ∈ s.filteredData ∧ ((∃ p, x.short = some p ∧ p ≠ 0) ∨ ∃ p, x.long = some p ∧ p ≠ 0)) ∧
    (∀ x ∈ createStopLosses s,
      (∀ p, x.sl = some p → stopLossY s x = some (s.yScaleFunc.apply p) ∧
        attrY (stopLossY s x) = s.yScaleFunc.apply p) ∧
      (x.sl = none → stopLossY s x = none ∧ attrY (stopLossY s x) = 0)) ∧
    (∀ x ∈ createTakeProfits s,
      (∀ p, x.tp = some p → takeProfitY s x = some (s.yScaleFunc.apply p) ∧
        attrY (takeProfitY s x) = s.yScaleFunc.apply p) ∧
      (x.tp = none → takeProfitY s x = none ∧ attrY (takeProfitY s x) = 0)) := by
  refine ⟨fun x => ?_, fun x => ?_, fun x hx => ?_, fun x hx => ?_, fun x => ?_, fun x => ?_,
    fun x _ => ⟨fun p hp => ?_, fun hp => ?_⟩, fun x _ => ⟨fun p hp => ?_, fun hp => ?_⟩⟩
  · simp only [createLongPositions, List.mem_filter, truthy_iff]
  · simp only [createShortPositions, List.mem_filter, truthy_iff]
  · simp only [createLongPositions, List.mem_filter, truthy_iff] at hx
    obtain ⟨-, p, hp, -⟩ := hx
    exact ⟨p, hp, by simp [longY, Scale.applyOpt, hp]⟩
  · simp only [createShortPositions, List.mem_filter, truthy_iff] at hx
    obtain ⟨-, p, hp, -⟩ := hx
    exact ⟨p, hp, by simp [shortY, Scale.applyOpt, hp]⟩
  · simp only [createStopLosses, List.mem_filter, Bool.or_eq_true, truthy_iff]
  · simp only [createTakeProfits, List.mem_filter, Bool.or_eq_true, truthy_iff]
  · simp [stopLossY, Scale.applyOpt, attrY, hp]
  · simp [stopLossY, Scale.applyOpt, attrY, hp]
  · simp [takeProfitY, Scale.applyOpt, attrY, hp]
  · simp [takeProfitY, Scale.applyOpt, attrY, hp]

/-- Claim C12, amended, at the scene whose first sample has a long entry with
`sl` and `tp`: the sample is in the stop-loss and take-profit render sets and
both markers are placed from its prices. -/
theorem marker_render_sets_witness :
    hedgedEntry ∈ createStopLosses hedgedScene ∧ hedgedEntry ∈ createTakeProfits hedgedScene ∧
    hedgedEntry.sl = some (1 / 2) ∧ hedgedEntry.tp = some 2 ∧
    stopLossY hedgedScene hedgedEntry = some (hedgedScene.yScaleFunc.apply (1 / 2)) ∧
    takeProfitY hedgedScene hedgedEntry = some (hedgedScene.yScaleFunc.apply 2) :=
  have hd : hedgedEntry ∈ hedgedScene.filteredData := by
    have h : hedgedScene.filteredData = hedgedDays := rfl
    rw [h]
    simp [hedgedDays]
  have hm : hedgedEntry ∈ createStopLosses hedgedScene :=
    ((marker_render_sets hedgedScene).2.2.2.2.1 _).mpr ⟨hd, Or.inr ⟨1, rfl, one_ne_zero⟩⟩
  have hm2 : hedgedEntry ∈ createTakeProfits hedgedScene :=
    ((marker_render_sets hedgedScene).2.2.2.2.2.1 _).mpr ⟨hd, Or.inr ⟨1, rfl, one_ne_zero⟩⟩
  ⟨hm, hm2, rfl, rfl,
    (((marker_render_sets hedgedScene).2.2.2.2.2.2.1 _ hm).1 (1 / 2) rfl).1,
    (((marker_render_sets hedgedScene).2.2.2.2.2.2.2 _ hm2).1 2 rfl).1⟩

theorem hedgedScene_marker_y :
    hedgedScene.yScaleFunc = ⟨11 / 5, 9 / 20, 0, 600⟩ ∧
    hedgedScene.yScaleFunc.apply (1 / 2) = 4080 / 7 ∧
    hedgedScene.yScaleFunc.apply 2 = 480 / 7 := by
  have h : hedgedScene.yScaleFunc = ⟨11 / 5, 9 / 20, 0, 600⟩ := by
    show calculateYscale hedgedChart = _
    have hy : yMinMax hedgedChart = (11 / 5, 9 / 20) := by
      simp only [yMinMax, hedgedChart, hedgedDays, hedgedEntry, flatSample, demoChart,
        demoConfigExtended, demoConfig]
      norm_num [d3extent, extentStep]
    simp only [calculateYscale, hy]
    rfl
  refine ⟨h, ?_, ?_⟩ <;>
    · rw [h]
      norm_num [Scale.apply, bimap, normalize, interpolateNumber]

/-- Claim C12 as stated fails.  In the scene of two days whose first sample has
a long entry and neither `sl` nor `tp`, that sample is in the stop-loss and in
the take-profit render sets; `yScaleFunc` returns `undefined` for both and
the markers are drawn at the default `y = 0`. -/
theorem tradeScene_stop_loss_without_sl :
    tradeScene.filteredData = tradeDays ∧
    ∃ x ∈ createStopLosses tradeScene, x ∈ createTakeProfits tradeScene ∧
      x.long = some 1 ∧ x.sl = none ∧ x.tp = none ∧
      stopLossY tradeScene x = none ∧ takeProfitY tradeScene x = none ∧
      attrY (stopLossY tradeScene x) = 0 ∧ attrY (takeProfitY tradeScene x) = 0 := by
  refine ⟨rfl, { flatSample ⟨"1970-01-01", 0⟩ with long := some 1 }, ?_, ?_, rfl, rfl, rfl, rfl,
    rfl, rfl, rfl⟩
  · have hd : tradeScene.filteredData = tradeDays := rfl
    simp [createStopLosses, hd, tradeDays, truthy, flatSample]
  · have hd : tradeScene.filteredData = tradeDays := rfl
    simp [createTakeProfits, hd, tradeDays, truthy, flatSample]

/-! ### Crosshair labels -/

theorem clamp_mem (size label p : ℚ) (_h0 : 0 ≤ label) (h1 : label ≤ size) :
    0 ≤ (if p ≥ size - label / 2 then size - label else if p ≤ label / 2 then 0
      else p - label / 2) ∧
    (if p ≥ size - label / 2 then size - label else if p ≤ label / 2 then 0
      else p - label / 2) ≤ size - label := by
  split_ifs with a b
  · constructor <;> linarith
  · constructor <;> linarith
  · push_neg at a b
    constructor <;> linarith

theorem xLabelHandler_position (s : Scene) (date : Option DateVal) (x : ℚ) (hx : x ≠ 0)
    (h0 : 0 ≤ s.config.xLabelWidth) (h1 : s.config.xLabelWidth ≤ s.config.svgWidth) :
    ∃ a, xLabelHandler s date (some x) = some a ∧ 0 ≤ a ∧
      a ≤ s.config.svgWidth - s.config.xLabelWidth := by
  have ht : truthy (some x) = true := by simp [truthy, hx]
  simp only [xLabelHandler, ht, if_true, Option.map_some']
  exact ⟨_, rfl, clamp_mem _ _ x h0 h1⟩

theorem xLabelHandler_sample (s : Scene) (d : DateVal)
    (h0 : 0 ≤ s.config.xLabelWidth) (h1 : s.config.xLabelWidth ≤ s.config.svgWidth) :
    ∃ a, xLabelHandler s (some d) none = some a ∧ 0 ≤ a ∧
      a ≤ s.config.svgWidth - s.config.xLabelWidth := by
  have ht : truthy none = false := rfl
  simp only [xLabelHandler, ht, parseDate, Scale.applyOpt, Option.map_some']
  exact ⟨_, rfl, clamp_mem _ _ _ h0 h1⟩

theorem yLabelHandler_mem (s : Scene) (y : ℚ)
    (h0 : 0 ≤ s.config.yLabelHeight) (h1 : s.config.yLabelHeight ≤ s.config.svgHeight) :
    0 ≤ yLabelHandler s y ∧ yLabelHandler s y ≤ s.config.svgHeight - s.config.yLabelHeight :=
  clamp_mem _ _ y h0 h1

/-- Claim C13 at the failing input.  On the demo scene, where
`0 ≤ xLabelWidth = 100 ≤ svgWidth = 1000`, the pointer position `0` is falsy
in `if (position)`, so `#xLabelHandler` scales the date of the container
datum, which has none, and the anchor is `NaN`; at the pointer positions 1,
500 and 1000 the anchor is 0, 450 and 900, and the Y anchor at position 0
is 0. -/
theorem xLabel_at_pixel_zero :
    0 ≤ demoScene.config.xLabelWidth ∧
    demoScene.config.xLabelWidth ≤ demoScene.config.svgWidth ∧
    xLabelHandler demoScene none (some 0) = none ∧
    xLabelHandler demoScene none (some 1) = some 0 ∧
    xLabelHandler demoScene none (some 500) = some 450 ∧
    xLabelHandler demoScene none (some 1000) = some 900 ∧
    yLabelHandler demoScene 0 = 0 := by
  have hw : demoScene.config.xLabelWidth = 100 := rfl
  have hs : demoScene.config.svgWidth = 1000 := rfl
  have hh : demoScene.config.yLabelHeight = 20 := rfl
  have hg : demoScene.config.svgHeight = 600 := rfl
  refine ⟨by rw [hw]; norm_num, by rw [hw, hs]; norm_num, ?_, ?_, ?_, ?_, ?_⟩
  · simp [xLabelHandler, truthy, parseDate, Scale.applyOpt]
  · norm_num [xLabelHandler, truthy, hw, hs]
  · norm_num [xLabelHandler, truthy, hw, hs]
  · norm_num [xLabelHandler, truthy, hw, hs]
  · norm_num [yLabelHandler, hh, hg]

/-! ### Reconfiguration: `setConfig` -/

theorem calculateExtendConfigs_fields (maxPrice : ℚ) (c : Config) :
    (calculateExtendConfigs maxPrice c).yLabelWidth =
      5 / 2 + (toFixedLength maxPrice c.decimal : ℕ) * c.charWidth ∧
    (calculateExtendConfigs maxPrice c).paddingRight =
      (calculateExtendConfigs maxPrice c).yLabelWidth ∧
    (calculateExtendConfigs maxPrice c).svgWidth =
      (calculateExtendConfigs maxPrice c).width -
        ((calculateExtendConfigs maxPrice c).paddingLeft +
          (calculateExtendConfigs maxPrice c).paddingRight) - 2 ∧
    (calculateExtendConfigs maxPrice c).svgHeight =
      (calculateExtendConfigs maxPrice c).height -
        ((calculateExtendConfigs maxPrice c).paddingBottom +
          (calculateExtendConfigs maxPrice c).paddingTop + 6) ∧
    (calculateExtendConfigs maxPrice c).width = c.width ∧
    (calculateExtendConfigs maxPrice c).height = c.height ∧
    (calculateExtendConfigs maxPrice c).paddingLeft = c.paddingLeft ∧
    (calculateExtendConfigs maxPrice c).paddingTop = c.paddingTop ∧
    (calculateExtendConfigs maxPrice c).paddingBottom = c.paddingBottom :=
  ⟨rfl, rfl, rfl, rfl, rfl, rfl, rfl, rfl, rfl⟩

theorem setConfig_returns (c : Chart) (u : ConfigUpdate)
    (h : (assignConfig c.config u).decimal ≤ 100) :
    setConfig c u =
      ({ c with config := calculateExtendConfigs c.maxPrice (assignConfig c.config u) }, none) := by
  simp [setConfig, h]

theorem setConfig_raised (c : Chart) (u : ConfigUpdate)
    (h : ¬ (assignConfig c.config u).decimal ≤ 100) :
    setConfig c u = ({ c with config := assignConfig c.config u }, some .rangeError) := by
  simp [setConfig, h]

theorem setConfig_returns_iff (c : Chart) (u : ConfigUpdate) :
    (setConfig c u).2 = none ↔ (assignConfig c.config u).decimal ≤ 100 := by
  by_cases h : (assignConfig c.config u).decimal ≤ 100
  · simp [setConfig, h]
  · simp [setConfig, h]

theorem setConfig_scene_toChart (s : Scene) (u : ConfigUpdate) :
    (s.setConfig u).1.toChart = (setConfig s.toChart u).1 ∧
    (s.setConfig u).2 = (setConfig s.toChart u).2 := by
  by_cases h : (assignConfig s.config u).decimal ≤ 100
  · simp [Scene.setConfig, setConfig, h]
  · simp [Scene.setConfig, setConfig, h]

/-- Claim C16.  For every chart and every partial update, `setConfig`
returns exactly when the resulting `decimal` is within the 100 digits that
`toFixed` accepts, and after it has returned the assigned fields hold the
values of the update, `paddingRight = yLabelWidth`,
`svgWidth = width - (paddingLeft + paddingRight) - 2` and
`svgHeight = height - (paddingBottom + paddingTop + 6)`, all on the new
values; an update with `width: 800` gives an `svgWidth` computed from 800;
a drawn chart gets the same configuration, and the next `draw()` scales onto
the new `svgWidth`. -/
theorem setConfig_consistent (c : Chart) (u : ConfigUpdate) :
    ((setConfig c u).2 = none ↔ u.decimal.getD c.config.decimal ≤ 100) ∧
    ((setConfig c u).2 = none →
      (setConfig c u).1.config.width = u.width.getD c.config.width ∧
      (setConfig c u).1.config.height = u.height.getD c.config.height ∧
      (setConfig c u).1.config.paddingLeft = u.paddingLeft.getD c.config.paddingLeft ∧
      (setConfig c u).1.config.paddingTop = u.paddingTop.getD c.config.paddingTop ∧
      (setConfig c u).1.config.paddingBottom = u.paddingBottom.getD c.config.paddingBottom ∧
      (setConfig c u).1.config.yLabelWidth =
        5 / 2 + (toFixedLength c.maxPrice (u.decimal.getD c.config.decimal) : ℕ) *
          u.charWidth.getD c.config.charWidth ∧
      (setConfig c u).1.config.paddingRight = (setConfig c u).1.config.yLabelWidth ∧
      (setConfig c u).1.config.svgWidth =
        (setConfig c u).1.config.width -
          ((setConfig c u).1.config.paddingLeft + (setConfig c u).1.config.paddingRight) - 2 ∧
      (setConfig c u).1.config.svgHeight =
        (setConfig c u).1.config.height -
          ((setConfig c u).1.config.paddingBottom + (setConfig c u).1.config.paddingTop + 6) ∧
      (u.width = some 800 → (setConfig c u).1.config.svgWidth =
        800 - ((setConfig c u).1.config.paddingLeft +
          (setConfig c u).1.config.paddingRight) - 2) ∧
      (∀ s : Scene, s.toChart = c →
        (s.setConfig u).1.config = (setConfig c u).1.config ∧
        (draw (setConfig c u).1).xScaleFunc.r1 = (setConfig c u).1.config.svgWidth)) := by
  refine ⟨setConfig_returns_iff c u, fun h => ?_⟩
  have hd := (setConfig_returns_iff c u).mp h
  rw [setConfig_returns c u hd]
  refine ⟨rfl, rfl, rfl, rfl, rfl, rfl, rfl, rfl, rfl, fun hw => ?_, fun s hs => ⟨?_, rfl⟩⟩
  · show (u.width.getD c.config.width) - _ - 2 = _
    rw [hw]
    rfl
  · subst hs
    rw [congrArg (fun t => t.config) (setConfig_scene_toChart s u).1, setConfig_returns _ u hd]

theorem setConfig_demo_width :
    (setConfig demoChart { width := some 800 }).2 = none ∧
    (setConfig demoChart { width := some 800 }).1.config.width = 800 ∧
    (setConfig demoChart { width := some 800 }).1.config.svgWidth = 778 ∧
    (draw (setConfig demoChart { width := some 800 }).1).xScaleFunc.r1 = 778 := by
  have hd : (assignConfig demoChart.config { width := some 800 }).decimal ≤ 100 := by
    show (0 : ℕ) ≤ 100
    decide
  rw [setConfig_returns _ _ hd]
  have h : (calculateExtendConfigs demoChart.maxPrice
      (assignConfig demoChart.config { width := some 800 })).svgWidth
      = 800 - (10 + (5 / 2 + (toFixedLength 1 0 : ℕ) * (15 / 2))) - 2 := rfl
  rw [toFixedLength_one] at h
  norm_num at h
  exact ⟨rfl, rfl, h, h⟩

/-- Claim C16 at the demo chart and `setConfig({width: 800})`, which returns. -/
theorem setConfig_consistent_witness :
    (setConfig demoChart { width := some 800 }).2 = none ∧
    (setConfig demoChart { width := some 800 }).1.config.svgWidth =
      (setConfig demoChart { width := some 800 }).1.config.width -
        ((setConfig demoChart { width := some 800 }).1.config.paddingLeft +
          (setConfig demoChart { width := some 800 }).1.config.paddingRight) - 2 :=
  ⟨setConfig_demo_width.1,
    ((setConfig_consistent demoChart { width := some 800 }).2
      setConfig_demo_width.1).2.2.2.2.2.2.2.1⟩

theorem setConfig_raises :
    (setConfig demoChart { width := some 800, decimal := some 101 }).2 = some .rangeError ∧
    (setConfig demoChart { width := some 800, decimal := some 101 }).1.config.width = 800 ∧
    (setConfig demoChart { width := some 800, decimal := some 101 }).1.config.svgWidth = 1000 := by
  have hd : ¬ (assignConfig demoChart.config
      { width := some 800, decimal := some 101 }).decimal ≤ 100 := by
    show ¬ (101 : ℕ) ≤ 100
    decide
  have h := setConfig_raised demoChart { width := some 800, decimal := some 101 } hd
  rw [h]
  exact ⟨rfl, rfl, rfl⟩

/-! ### Boundary candles -/

theorem inWindow_of_bodyIntersects (sp left right : ℚ) (x : Sample) (hsp : 0 < sp)
    (hb : bodyIntersects sp left right x) :
    inWindow (some (sp - sp * (3 / 10))) left right x = true := by
  obtain ⟨t, h1, h2, h3, h4⟩ := hb
  simp only [inWindow, Bool.and_eq_true, decide_eq_true_eq]
  constructor <;> linarith

/-- Claim C17.  For a positive candle spacing and `candleWidthDate` equal to
`0.7` times it, as the constructor sets it, after a pan, a wheel zoom and a
non-degenerate zoom-box commit every sample of `data` whose candle body, the
times within `0.35` spacings of its date, meets the committed zoom range
belongs to the filtered window. -/
theorem boundary_candles_in_window (s : Scene) (sp : ℚ) (hsp : 0 < sp)
    (_hl : s.candleLockerWidthDate = some sp) (hw : s.candleWidthDate = some (sp - sp * (3 / 10))) :
    (∀ cw p, ∀ x ∈ s.data,
      bodyIntersects sp (handlePan s cw p).zoomRange1 (handlePan s cw p).zoomRange2 x →
      x ∈ (handlePan s cw p).filteredData) ∧
    (∀ cw k p, ∀ x ∈ s.data,
      bodyIntersects sp (wheelZoom s cw k p).zoomRange1 (wheelZoom s cw k p).zoomRange2 x →
      x ∈ (wheelZoom s cw k p).filteredData) ∧
    (∀ a b, d3extent [s.zoomPoint1, s.zoomPoint2] = some (a, b) →
      s.xScaleFunc.invertTime a ≠ s.xScaleFunc.invertTime b →
      ∃ s2, handleZoom s = some s2 ∧ ∀ x ∈ s.data,
        bodyIntersects sp s2.zoomRange1 s2.zoomRange2 x → x ∈ s2.filteredData) := by
  refine ⟨fun cw p x hx hb => ?_, fun cw k p x hx hb => ?_, fun a b he hne => ?_⟩
  · obtain ⟨-, -, -, -, -, h3⟩ := handlePan_fields s cw p
    rw [h3, hw, List.mem_filter]
    exact ⟨hx, inWindow_of_bodyIntersects sp _ _ x hsp hb⟩
  · obtain ⟨-, -, -, -, -, h3, -⟩ := wheelZoom_fields s cw k p
    rw [h3, hw, List.mem_filter]
    exact ⟨hx, inWindow_of_bodyIntersects sp _ _ x hsp hb⟩
  · obtain ⟨s2, hs, -, -, -, -, -, h3, -⟩ := handleZoom_commit s a b he hne
    refine ⟨s2, hs, fun x hx hb => ?_⟩
    rw [h3, hw, List.mem_filter]
    exact ⟨hx, inWindow_of_bodyIntersects sp _ _ x hsp hb⟩

/-- Claim C17 at the demo scene panned to pixel 400. -/
theorem boundary_candles_in_window_witness :
    (0 : ℚ) < 86400000 ∧ demoScene.candleLockerWidthDate = some 86400000 ∧
    demoScene.candleWidthDate = some (86400000 - 86400000 * (3 / 10)) ∧
    ∀ x ∈ demoScene.data,
      bodyIntersects 86400000 (handlePan demoScene 1000 400).zoomRange1
        (handlePan demoScene 1000 400).zoomRange2 x →
      x ∈ (handlePan demoScene 1000 400).filteredData :=
  have hw : demoScene.candleWidthDate = some (86400000 - 86400000 * (3 / 10)) := by
    have h : demoScene.candleWidthDate = some 60480000 := rfl
    rw [h]
    norm_num
  ⟨by norm_num, rfl, hw,
    (boundary_candles_in_window demoScene 86400000 (by norm_num) rfl hw).1 1000 400⟩

/-! ### Order of the zoom range -/

theorem d3extent_two_le (p q : Option ℚ) (a b : ℚ) (h : d3extent [p, q] = some (a, b)) :
    a ≤ b := by
  cases p with
  | none =>
    cases q with
    | none => simp [d3extent, extentStep] at h
    | some y =>
      simp only [d3extent, List.foldl, extentStep, Option.some.injEq, Prod.mk.injEq] at h
      obtain ⟨rfl, rfl⟩ := h
      exact le_refl _
  | some x =>
    cases q with
    | none =>
      simp only [d3extent, List.foldl, extentStep, Option.some.injEq, Prod.mk.injEq] at h
      obtain ⟨rfl, rfl⟩ := h
      exact le_refl _
    | some y =>
      rw [d3extent_pair] at h
      simp only [Option.some.injEq, Prod.mk.injEq] at h
      obtain ⟨rfl, rfl⟩ := h
      exact min_le_max

theorem jsRound_pos_iff (q : ℚ) : (0 : ℚ) < (jsRound q : ℚ) ↔ 1 / 2 ≤ q := by
  unfold jsRound
  constructor
  · intro h
    have h1 : (0 : ℤ) < ⌊q + 1 / 2⌋ := by exact_mod_cast h
    have h2 : (1 : ℤ) ≤ ⌊q + 1 / 2⌋ := h1
    rw [Int.le_floor] at h2
    have h3 : ((1 : ℤ) : ℚ) = 1 := by norm_num
    rw [h3] at h2
    linarith
  · intro h
    have h2 : (1 : ℤ) ≤ ⌊q + 1 / 2⌋ := by
      rw [Int.le_floor]
      have h3 : ((1 : ℤ) : ℚ) = 1 := by norm_num
      rw [h3]
      linarith
    have h1 : (0 : ℤ) < ⌊q + 1 / 2⌋ := h2
    exact_mod_cast h1

theorem jsRound_nonneg (q : ℚ) (h : 0 ≤ q) : (0 : ℚ) ≤ (jsRound q : ℚ) := by
  unfold jsRound
  have h2 : (0 : ℤ) ≤ ⌊q + 1 / 2⌋ := by
    rw [Int.le_floor]
    have h3 : ((0 : ℤ) : ℚ) = 0 := by norm_num
    rw [h3]
    linarith
  exact_mod_cast h2

/-- Claim C14, amended.  From a drawn scene of positive width with
`zoomRange` start before end, a positive `zoomFactor` and a dataset of
positive time span, a pan and a non-degenerate zoom-box commit end with start
before end; a wheel zoom ends with start at most end, and with start before
end exactly when the updated `zoomFactor` is at most twice the time span of
the dataset in milliseconds. -/
theorem viewport_order (s : Scene) (h1 : s.zoomRange1 < s.zoomRange2) (hz : 0 < s.zoomFactor)
    (hspan : 0 < s.minMaxDate.2 - s.minMaxDate.1) (hf : s.Fresh)
    (hw : 0 < s.config.svgWidth) :
    (∀ cw x, (handlePan s cw x).zoomRange1 < (handlePan s cw x).zoomRange2) ∧
    (∀ a b, d3extent [s.zoomPoint1, s.zoomPoint2] = some (a, b) →
      s.xScaleFunc.invertTime a ≠ s.xScaleFunc.invertTime b →
      ∃ s2, handleZoom s = some s2 ∧ s2.zoomRange1 < s2.zoomRange2) ∧
    (∀ cw k x, (wheelZoom s cw k x).zoomRange1 ≤ (wheelZoom s cw k x).zoomRange2 ∧
      ((wheelZoom s cw k x).zoomRange1 < (wheelZoom s cw k x).zoomRange2 ↔
        (wheelZoom s cw k x).zoomFactor ≤ 2 * (s.minMaxDate.2 - s.minMaxDate.1))) := by
  refine ⟨fun cw x => ?_, fun a b he hne => ?_, fun cw k x => ?_⟩
  · obtain ⟨e1, e2, -⟩ := handlePan_fields s cw x
    rw [e1, e2]
    linarith
  · obtain ⟨s2, hs, r1, r2, -⟩ := handleZoom_commit s a b he hne
    refine ⟨s2, hs, ?_⟩
    rw [r1, r2]
    have hmono : s.xScaleFunc.invertTime a ≤ s.xScaleFunc.invertTime b := by
      apply invertTime_mono
      · rw [hf]; rfl
      · rw [hf]; exact hw
      · rw [hf]
        show ((jsTrunc s.zoomRange1 : ℤ) : ℚ) ≤ ((jsTrunc s.zoomRange2 : ℤ) : ℚ)
        exact_mod_cast jsTrunc_mono h1.le
      · exact d3extent_two_le _ _ a b he
    exact lt_of_le_of_ne hmono hne
  · obtain ⟨e0, -, e2, -⟩ := wheelZoom_fields s cw k x
    have hz2 : 0 < (wheelZoom s cw k x).zoomFactor := by
      rw [e0]
      apply mul_pos hz
      split <;> norm_num
    rw [← e0] at e2
    constructor
    · rw [e2]
      have := jsRound_nonneg ((s.minMaxDate.2 - s.minMaxDate.1) / (wheelZoom s cw k x).zoomFactor)
        (div_nonneg hspan.le hz2.le)
      linarith
    · rw [e2]
      have key := jsRound_pos_iff
        ((s.minMaxDate.2 - s.minMaxDate.1) / (wheelZoom s cw k x).zoomFactor)
      constructor
      · intro h
        have h2 : (0 : ℚ) < (jsRound ((s.minMaxDate.2 - s.minMaxDate.1) /
            (wheelZoom s cw k x).zoomFactor) : ℚ) := by linarith
        have h3 := key.mp h2
        rw [le_div_iff₀ hz2] at h3
        linarith
      · intro h
        have h3 : 1 / 2 ≤ (s.minMaxDate.2 - s.minMaxDate.1) / (wheelZoom s cw k x).zoomFactor := by
          rw [le_div_iff₀ hz2]
          linarith
        have := key.mpr h3
        linarith

/-- Claim C14, amended, at the demo scene. -/
theorem viewport_order_witness :
    demoScene.zoomRange1 < demoScene.zoomRange2 ∧ 0 < demoScene.zoomFactor ∧
    0 < demoScene.minMaxDate.2 - demoScene.minMaxDate.1 ∧ demoScene.Fresh ∧
    0 < demoScene.config.svgWidth ∧
    ∀ cw x, (handlePan demoScene cw x).zoomRange1 < (handlePan demoScene cw x).zoomRange2 :=
  have a1 : demoScene.zoomRange1 < demoScene.zoomRange2 := by
    rw [demoScene_facts.2.2.2.2.1, demoScene_facts.2.2.2.2.2.1]
    norm_num
  have a2 : 0 < demoScene.zoomFactor := by
    rw [demoScene_facts.2.2.2.2.2.2.2]
    norm_num
  have a3 : 0 < demoScene.minMaxDate.2 - demoScene.minMaxDate.1 := by
    rw [demoScene_facts.2.2.2.2.2.2.1]
    norm_num
  have a5 : 0 < demoScene.config.svgWidth := by
    rw [demoScene_facts.2.2.1]
    norm_num
  ⟨a1, a2, a3, rfl, a5, (viewport_order demoScene a1 a2 a3 rfl a5).1⟩

theorem wheelIn_demo (n : ℕ) :
    (wheelIn demoScene n).zoomFactor = (11 / 10) ^ n ∧
    (wheelIn demoScene n).zoomRange1 = 0 ∧
    (wheelIn demoScene n).minMaxDate = (0, 777600000) ∧
    (wheelIn demoScene n).config = demoScene.config ∧
    (wheelIn demoScene n).Fresh ∧
    (0 < n → (wheelIn demoScene n).zoomRange2 =
      (jsRound (777600000 / (11 / 10) ^ n) : ℚ)) := by
  induction n with
  | zero =>
    exact ⟨by simp [wheelIn, demoScene_facts.2.2.2.2.2.2.2], rfl, rfl, rfl, rfl,
      fun h => absurd h (lt_irrefl 0)⟩
  | succ n ih =>
    obtain ⟨hz, hr, hm, hc, hf, -⟩ := ih
    obtain ⟨e0, e1, e2, -, -, -, ef, ec⟩ := wheelZoom_fields (wheelIn demoScene n) 1000 2 0
    have hk : (2 : ℚ) > 1 := by norm_num
    rw [if_pos hk] at e0 e1 e2
    have hsw : (wheelIn demoScene n).config.svgWidth = 1000 := by rw [hc]; rfl
    have hinv : (wheelIn demoScene n).xScaleFunc.invertTime 0 = 0 := by
      unfold Scale.invertTime
      have hr1 : (calculateXscale (wheelIn demoScene n).toChart).r1 = 1000 := hsw
      rw [invert_of_pos _ (by rw [hf]; rfl) (by rw [hf, hr1]; norm_num), hf]
      simp [calculateXscale, hr, jsTrunc]
    have hzf : (wheelIn demoScene (n + 1)).zoomFactor = (11 / 10) ^ (n + 1) := by
      show (wheelZoom (wheelIn demoScene n) 1000 2 0).zoomFactor = _
      rw [e0, hz, pow_succ]
    have hr1 : (wheelIn demoScene (n + 1)).zoomRange1 = 0 := by
      show (wheelZoom (wheelIn demoScene n) 1000 2 0).zoomRange1 = _
      rw [e1, hinv]
      norm_num [jsRound]
    have hm1 : (wheelIn demoScene (n + 1)).minMaxDate = (0, 777600000) := hm
    refine ⟨hzf, hr1, hm1, ec.trans hc, ef, fun _ => ?_⟩
    show (wheelZoom (wheelIn demoScene n) 1000 2 0).zoomRange2 = _
    rw [e2]
    show (wheelIn demoScene (n + 1)).zoomRange1 + _ = _
    rw [hr1, hm, hz, zero_add, pow_succ]
    norm_num

/-- Claim C14 as stated fails.  After 222 wheel steps in at pixel 0 of the
ten-day demo scene the zoom range is `(0, 1)` with a positive zoom factor;
the next wheel step in rounds the new width to 0 and commits `(0, 0)`. -/
theorem wheel_collapses_viewport :
    (wheelIn demoScene 222).zoomRange1 = 0 ∧ (wheelIn demoScene 222).zoomRange2 = 1 ∧
    (wheelIn demoScene 222).zoomRange1 < (wheelIn demoScene 222).zoomRange2 ∧
    0 < (wheelIn demoScene 222).zoomFactor ∧
    0 < (wheelIn demoScene 222).minMaxDate.2 - (wheelIn demoScene 222).minMaxDate.1 ∧
    (wheelZoom (wheelIn demoScene 222) 1000 2 0).zoomRange1 = 0 ∧
    (wheelZoom (wheelIn demoScene 222) 1000 2 0).zoomRange2 = 0 ∧
    ¬ ((wheelZoom (wheelIn demoScene 222) 1000 2 0).zoomRange1 <
      (wheelZoom (wheelIn demoScene 222) 1000 2 0).zoomRange2) := by
  obtain ⟨hz, hr, hm, -, -, h2⟩ := wheelIn_demo 222
  obtain ⟨-, hr', -, -, -, h2'⟩ := wheelIn_demo 223
  have a2 : (wheelIn demoScene 222).zoomRange2 = 1 := by
    rw [h2 (by norm_num)]
    norm_num [jsRound]
  have b1 : (wheelZoom (wheelIn demoScene 222) 1000 2 0).zoomRange1 = 0 := hr'
  have b2 : (wheelZoom (wheelIn demoScene 222) 1000 2 0).zoomRange2 = 0 := by
    show (wheelIn demoScene 223).zoomRange2 = 0
    rw [h2' (by norm_num)]
    norm_num [jsRound]
  refine ⟨hr, a2, ?_, ?_, ?_, b1, b2, ?_⟩
  · rw [hr, a2]; norm_num
  · rw [hz]; positivity
  · rw [hm]; norm_num
  · rw [b1, b2]; norm_num

/-! ### The mode -/

theorem construct_selection (cfg : Config) (data : List Sample) (c : Chart)
    (h : construct cfg data = .ok c) :
    c.mode = .pan ∧ c.zoomPoint1 = none ∧ c.zoomPoint2 = none ∧ c.isMouseDown = false := by
  unfold construct at h
  cases hm : d3max (data.map fun x => x.high) with
  | none => simp [hm] at h
  | some maxPrice =>
    simp only [hm, sortWith_constructorComparator] at h
    cases he : d3extent (data.map fun x => parseDate (some x.date)) with
    | none => simp [he] at h
    | some mm =>
      simp only [he] at h
      cases h
      exact ⟨rfl, rfl, rfl, rfl⟩

theorem setConfig_selection (c : Chart) (u : ConfigUpdate) :
    (setConfig c u).1.mode = c.mode ∧ (setConfig c u).1.zoomPoint1 = c.zoomPoint1 ∧
    (setConfig c u).1.zoomPoint2 = c.zoomPoint2 := by
  by_cases h : (assignConfig c.config u).decimal ≤ 100
  · simp [setConfig, h]
  · simp [setConfig, h]

theorem setConfig_scene_selection (s : Scene) (u : ConfigUpdate) :
    (s.setConfig u).1.mode = s.mode ∧ (s.setConfig u).1.zoomPoint1 = s.zoomPoint1 ∧
    (s.setConfig u).1.zoomPoint2 = s.zoomPoint2 := by
  by_cases h : (assignConfig s.config u).decimal ≤ 100
  · simp [Scene.setConfig, h]
  · simp [Scene.setConfig, h]

theorem constructed_pan (c : Chart) (h : Constructed c) :
    c.mode = .pan ∧ c.zoomPoint1 = none ∧ c.zoomPoint2 = none := by
  induction h with
  | create cfg data c h =>
    obtain ⟨h1, h2, h3, -⟩ := construct_selection cfg data c h
    exact ⟨h1, h2, h3⟩
  | setConfig c u _ ih =>
    obtain ⟨e0, e1, e2⟩ := setConfig_selection c u
    rw [e0, e1, e2]
    exact ih

theorem step_pan (s t : Scene) (h : Step s t)
    (hs : s.mode = .pan ∧ s.zoomPoint1 = none ∧ s.zoomPoint2 = none) :
    t.mode = .pan ∧ t.zoomPoint1 = none ∧ t.zoomPoint2 = none := by
  obtain ⟨hm, h1, h2⟩ := hs
  cases h with
  | draw => exact ⟨hm, h1, h2⟩
  | destroy => exact ⟨hm, h1, h2⟩
  | setColors => exact ⟨hm, h1, h2⟩
  | getColors => exact ⟨hm, h1, h2⟩
  | getConfig => exact ⟨hm, h1, h2⟩
  | setConfig u =>
    obtain ⟨e0, e1, e2⟩ := setConfig_scene_selection s u
    rw [e0, e1, e2]
    exact ⟨hm, h1, h2⟩
  | mouseDown x => simp [mouseDown, hm, h1, h2]
  | mouseMove cw x =>
    by_cases hd : s.isMouseDown = true
    · simp only [mouseMove, hm, hd]
      exact ⟨hm, h1, h2⟩
    · simp only [mouseMove, hm, hd]
      exact ⟨hm, h1, h2⟩
  | mouseUp _ h =>
    simp only [mouseUp, hm, Option.some.injEq] at h
    subst h
    exact ⟨rfl, h1, h2⟩
  | wheel cw k x => exact ⟨hm, h1, h2⟩
  | mouseMoveLockers => exact ⟨hm, h1, h2⟩
  | mouseLeaveLocker => exact ⟨hm, h1, h2⟩

theorem reachable_pan (s : Scene) (h : Reachable s) :
    s.mode = .pan ∧ s.zoomPoint1 = none ∧ s.zoomPoint2 = none := by
  induction h with
  | first c hc => exact constructed_pan c hc
  | step s t _ hst ih => exact step_pan s t hst ih

/-- Claim C18.  In every scene reachable from the constructor through
`setConfig`, `draw`, `destroy`, `setColors`, `getColors`, `getConfig` and the
pointer and wheel handlers the mode is `pan` and no selection point is set;
hence `mousedown` records the pan anchor, `mousemove` pans when the button is
down and does nothing otherwise, and `mouseup` clears the anchor: none of
them takes its zoom branch. -/
theorem mode_always_pan (s : Scene) (h : Reachable s) :
    s.mode = .pan ∧ s.zoomPoint1 = none ∧ s.zoomPoint2 = none ∧
    (∀ x, mouseDown s x =
      { s with isMouseDown := true, panTargetDate := s.xScaleFunc.invertTime x }) ∧
    (∀ cw x, mouseMove s cw x =
      if s.isMouseDown = true then
        handlePan s cw (if x > s.config.width then s.config.width else x)
      else s) ∧
    mouseUp s = some { s with isMouseDown := false, panTargetDate := 0 } := by
  obtain ⟨hm, h1, h2⟩ := reachable_pan s h
  refine ⟨hm, h1, h2, fun x => ?_, fun cw x => ?_, ?_⟩
  · simp [mouseDown, hm]
  · by_cases hd : s.isMouseDown = true
    · simp [mouseMove, hm, hd]
    · simp [mouseMove, hm, hd]
  · simp [mouseUp, hm]

theorem demoScene_reachable : Reachable demoScene :=
  Reachable.first demoChart (Constructed.create demoConfig tenDays demoChart construct_demo)

/-- Claim C18 at the demo scene after one wheel step. -/
theorem mode_always_pan_witness :
    Reachable (wheelZoom demoScene 1000 2 500) ∧
    (wheelZoom demoScene 1000 2 500).mode = .pan :=
  have h : Reachable (wheelZoom demoScene 1000 2 500) :=
    Reachable.step demoScene _ demoScene_reachable (Step.wheel demoScene 1000 2 500)
  ⟨h, (mode_always_pan _ h).1⟩

/-! ### Zoom factor and window width -/

theorem construct_coherent (cfg : Config) (data : List Sample) (c : Chart)
    (h : construct cfg data = .ok c) :
    Coherent c ∧ c.zoomFactor = 1 ∧ c.zoomRange1 = c.minMaxDate.1 ∧
      c.zoomRange2 = c.minMaxDate.2 := by
  obtain ⟨-, -, -, -, -, hz, h1, h2⟩ := construct_fields cfg data c h
  refine ⟨?_, hz, h1, h2⟩
  unfold Coherent
  rw [hz, h1, h2]
  norm_num

/-- Claim C19.  The constructor returns a chart on two samples or more, and
after construction `zoomFactor` is 1, the zoom range is the extent of the
dataset and the relation `|(tEnd - tStart) - span / zoomFactor| ≤ 1/2` holds;
for a dataset of positive time span, that relation together with
`zoomFactor ≠ 0` is preserved by a pan, by a wheel zoom and by a
non-degenerate zoom-box commit. -/
theorem zoom_coherence :
    (∀ cfg data, 2 ≤ data.length → ∃ c, construct cfg data = .ok c) ∧
    (∀ cfg data c, construct cfg data = .ok c →
      Coherent c ∧ c.zoomFactor = 1 ∧ c.zoomRange1 = c.minMaxDate.1 ∧
        c.zoomRange2 = c.minMaxDate.2) ∧
    (∀ s : Scene, 0 < s.minMaxDate.2 - s.minMaxDate.1 → s.zoomFactor ≠ 0 →
      Coherent s.toChart →
      (∀ cw x, Coherent (handlePan s cw x).toChart ∧ (handlePan s cw x).zoomFactor ≠ 0) ∧
      (∀ cw k x, Coherent (wheelZoom s cw k x).toChart ∧ (wheelZoom s cw k x).zoomFactor ≠ 0) ∧
      (∀ a b, d3extent [s.zoomPoint1, s.zoomPoint2] = some (a, b) →
        s.xScaleFunc.invertTime a ≠ s.xScaleFunc.invertTime b →
        ∃ s2, handleZoom s = some s2 ∧ Coherent s2.toChart ∧ s2.zoomFactor ≠ 0)) := by
  refine ⟨fun cfg data h => ?_, construct_coherent, fun s hspan hz hc =>
    ⟨fun cw x => ?_, fun cw k x => ?_, fun a b he hne => ?_⟩⟩
  · obtain ⟨c, -, hc, -⟩ := construct_ok_of_two cfg data h
    exact ⟨c, hc⟩
  · obtain ⟨e1, e2, -, -, e5, -⟩ := handlePan_fields s cw x
    refine ⟨?_, by rw [e5]; exact hz⟩
    have hm : (handlePan s cw x).minMaxDate = s.minMaxDate := rfl
    unfold Coherent at hc ⊢
    show |((handlePan s cw x).zoomRange2 - (handlePan s cw x).zoomRange1) -
      ((handlePan s cw x).minMaxDate.2 - (handlePan s cw x).minMaxDate.1) /
        (handlePan s cw x).zoomFactor| ≤ 1 / 2
    rw [e1, e2, e5, hm]
    have : s.panTargetDate - x / cw * (s.zoomRange2 - s.zoomRange1) +
        (s.zoomRange2 - s.zoomRange1) -
        (s.panTargetDate - x / cw * (s.zoomRange2 - s.zoomRange1)) =
        s.zoomRange2 - s.zoomRange1 := by ring
    rw [this]
    exact hc
  · obtain ⟨e0, -, e2, -⟩ := wheelZoom_fields s cw k x
    have hz2 : (wheelZoom s cw k x).zoomFactor ≠ 0 := by
      rw [e0]
      apply mul_ne_zero hz
      split <;> norm_num
    refine ⟨?_, hz2⟩
    have hm : (wheelZoom s cw k x).minMaxDate = s.minMaxDate := rfl
    show |((wheelZoom s cw k x).zoomRange2 - (wheelZoom s cw k x).zoomRange1) -
      ((wheelZoom s cw k x).minMaxDate.2 - (wheelZoom s cw k x).minMaxDate.1) /
        (wheelZoom s cw k x).zoomFactor| ≤ 1 / 2
    rw [e2, hm, e0, add_sub_cancel_left]
    exact jsRound_sub_le _
  · obtain ⟨s2, hs, r1, r2, hzf, -, -, -, hmm⟩ := handleZoom_commit s a b he hne
    have hw : s.xScaleFunc.invertTime b - s.xScaleFunc.invertTime a ≠ 0 :=
      fun h => hne (sub_eq_zero.mp h).symm
    have hz2 : s2.zoomFactor ≠ 0 := by
      rw [hzf]
      exact div_ne_zero hspan.ne' hw
    refine ⟨s2, hs, ?_, hz2⟩
    show |(s2.zoomRange2 - s2.zoomRange1) - (s2.minMaxDate.2 - s2.minMaxDate.1) / s2.zoomFactor|
      ≤ 1 / 2
    rw [hzf, r1, r2, hmm, div_div_cancel₀ hspan.ne', sub_self]
    norm_num

/-- Claim C19 at the demo scene and one wheel step in at pixel 500. -/
theorem zoom_coherence_witness :
    0 < demoScene.minMaxDate.2 - demoScene.minMaxDate.1 ∧ demoScene.zoomFactor ≠ 0 ∧
    Coherent demoScene.toChart ∧
    Coherent (wheelZoom demoScene 1000 2 500).toChart :=
  have a1 : 0 < demoScene.minMaxDate.2 - demoScene.minMaxDate.1 := by
    rw [demoScene_facts.2.2.2.2.2.2.1]
    norm_num
  have a2 : demoScene.zoomFactor ≠ 0 := by
    rw [demoScene_facts.2.2.2.2.2.2.2]
    norm_num
  have a3 : Coherent demoScene.toChart := (construct_coherent demoConfig tenDays _ construct_demo).1
  ⟨a1, a2, a3, ((zoom_coherence.2.2 demoScene a1 a2 a3).2.1 1000 2 500).1⟩

end CandleStickChart
